import Mathlib

/-!
# blkid-test: a shallow embedding of `src/blkid-test.c`

The program is a single `main`.  It talks to three external parties:

* `getopt_long`, which hands the options of the command line to the option
  loop one at a time, in command-line order;
* the C allocator (`realloc`);
* `open`/`close` and the libblkid probing library.

None of them is part of the repository, so each is an oracle here: the command
line is the list of results `getopt_long` delivers, and the results of the
allocator and of the library are fields of `Heap` and `Library`.  Every call
site of `main` is executed at most once per run (the lookup loops call the
library once per table cell), so one field per call site covers every
behaviour of a deterministic library.

What `main` does is recorded as a trace of events (library calls together
with the result the program inspected, `printf` lines, `fprintf(stderr, ..)`
lines) and an exit status.

The two length counters are C `int`s incremented once per `-s`/`-p` option;
the operating system bounds the size of a command line far below `2^31`
options, so they are natural numbers here.
-/

namespace BlkidTest

/-! ## Data model -/

/-- The `ALIGNMENT` preprocessor constant (line 12). -/
def ALIGNMENT : String := "20"

/-- An argument handed to `printf`/`fprintf` after the format string. -/
inductive PrintfArg
  | str (s : String)
  | num (n : Int)
  deriving DecidableEq, Repr

/-- The filter modes of `blkid.h`; the program only ever passes `BLKID_FLTR_NOTIN`. -/
inductive FilterFlag
  | BLKID_FLTR_NOTIN
  | BLKID_FLTR_ONLYIN
  deriving DecidableEq, Repr

/-- The `BLKID_SUBLKS_*` bits of `blkid.h` that the program names. -/
inductive SublksFlag
  | BLKID_SUBLKS_LABEL
  | BLKID_SUBLKS_UUID
  | BLKID_SUBLKS_TYPE
  | BLKID_SUBLKS_SECTYPE
  | BLKID_SUBLKS_USAGE
  | BLKID_SUBLKS_VERSION
  | BLKID_SUBLKS_BADCSUM
  deriving DecidableEq, Repr

/-- A C array of `char*` cells: `none` is a `NULL` cell. -/
abbrev CellArray := List (Option String)

/-- A `char**` variable: `none` is the `NULL` pointer, `some cells` a live block. -/
abbrev ListPtr := Option CellArray

/-- The external calls `main` makes, with the arguments that vary. -/
inductive LibCall
  | blkid_init_debug (mask : Nat)
  | blkid_new_probe
  | open_ (path : String)
  | blkid_probe_set_device (fd : Int)
  | blkid_probe_enable_superblocks (enable : Nat)
  | blkid_probe_enable_partitions (enable : Nat)
  | blkid_do_probe
  | blkid_get_dev_size (fd : Int)
  | blkid_probe_get_size
  | blkid_probe_get_sectorsize
  | blkid_probe_set_superblocks_flags (flags : List SublksFlag)
  | blkid_probe_filter_superblocks_type (flag : FilterFlag) (names : ListPtr)
  | blkid_probe_filter_partitions_type (flag : FilterFlag) (names : ListPtr)
  | blkid_do_fullprobe
  | blkid_probe_lookup_value (name : String)
  | blkid_free_probe
  | close (fd : Int)
  deriving DecidableEq, Repr

/-- One observable step of a run.  A call carries `some r` when the program
inspects or uses the result `r`, and `none` when the result is discarded. -/
inductive Event
  | call (c : LibCall) (ret : Option Int)
  | printf (format : String) (args : List PrintfArg)
  | fprintf_stderr (format : String) (args : List PrintfArg)
  deriving DecidableEq, Repr

/-- What a run of `main` leaves behind: its trace and its exit status. -/
structure Outcome where
  trace : List Event
  status : Int
  deriving DecidableEq, Repr

/-- The option string handed to `getopt_long` (line 85): `d` and `h` take no
argument, `b`, `s` and `p` take a required one. -/
def optstring : String := "dhb:s:p:"

/-- The table `longopts` (lines 74-82): name, whether an argument is required,
and the value `getopt_long` returns for the long option (its `flag` is `NULL`),
which is the character of the matching short option. -/
def longopts : List (String × Bool × Char) :=
  [ ("debug", false, 'd'),
    ("help", false, 'h'),
    ("block-device", true, 'b'),
    ("filter-superblock-type", true, 's'),
    ("filter-partition-type", true, 'p') ]

/-- One result of `getopt_long`: the option character, the same for the short
and the long form of an option (`?` for an unknown option), and `optarg`
(meaningful for `b`, `s`, `p`, which take a required argument). -/
structure Getopt where
  opt : Char
  optarg : String
  deriving DecidableEq, Repr

/-- The allocator oracle: whether the `k`-th `realloc` call of the run succeeds,
and the content of cells that `realloc` leaves indeterminate. -/
structure Heap where
  realloc_ok : Nat → Bool
  indeterminate : Option String

/-- The results of `open` and of libblkid for one run, one field per call site.
Pointers are addresses (`0` is `NULL`); a lookup yields its return code and the
string it stores through `&ptname`. -/
structure Library where
  blkid_new_probe : Nat
  open_ : String → Int
  blkid_probe_set_device : Int
  blkid_do_probe : Int
  blkid_get_dev_size : Int
  blkid_probe_get_size : Int
  blkid_probe_get_sectorsize : Nat
  enable_superblocks : Int
  filter_superblocks_type : Int
  superblock_fullprobe : Int
  superblock_lookup : String → Int × String
  enable_partitions : Int
  filter_partitions_type : Int
  partition_fullprobe : Int
  partition_lookup : String → Int × String

/-- The locals of `main` that the option loop writes (lines 27, 66-70, 83),
with `reallocs` counting the allocator calls made so far. -/
structure Vars where
  debug : Bool
  block_device_path : Option String
  superblock_filter_list : ListPtr
  partition_filter_list : ListPtr
  superblock_filter_list_length : Nat
  partition_filter_list_length : Nat
  reallocs : Nat
  deriving DecidableEq, Repr

/-- The initial values of the locals (lines 27, 66, 67, 69, 70, 83). -/
def Vars.init : Vars :=
  { debug := false
    block_device_path := none
    superblock_filter_list := none
    partition_filter_list := none
    superblock_filter_list_length := 0
    partition_filter_list_length := 0
    reallocs := 0 }

/-! ## The tables (lines 28-65) -/

/-- The array `superblock_props` with its `NULL` terminator (lines 28-51). -/
def superblock_props : CellArray :=
  [ some "TYPE",
    some "SEC_TYPE",
    some "LABEL",
    some "LABEL_RAW",
    some "UUID",
    some "UUID_SUB",
    some "LOGUUID",
    some "UUID_RAW",
    some "EXT_JOURNAL",
    some "USAGE",
    some "VERSION",
    some "MOUNT",
    some "SBMAGIC",
    some "SBMAGIC_OFFSET",
    some "FSSIZE",
    some "SYSTEM_ID",
    some "PUBLISHER_ID",
    some "APPLICATION_ID",
    some "BOOT_SYSTEM_ID",
    some "SBBADCSUM",
    none ]

/-- The array `partition_props` with its `NULL` terminator (lines 52-65). -/
def partition_props : CellArray :=
  [ some "PTTYPE",
    some "PTUUID",
    some "PART_ENTRY_SCHEME",
    some "PART_ENTRY_NAME",
    some "PART_ENTRY_UUID",
    some "PART_ENTRY_TYPE",
    some "PART_ENTRY_FLAGS",
    some "PART_ENTRY_NUMBER",
    some "PART_ENTRY_OFFSET",
    some "PART_ENTRY_DISK",
    none ]

/-- The strings a `NULL`-terminated array holds, read cell by cell up to the
first `NULL` cell. -/
def upto_null : CellArray → List String
  | some s :: rest => s :: upto_null rest
  | _ => []

/-- The superblock key vocabulary as the specification lists it (section 6). -/
def spec_superblock_keys : List String :=
  ["TYPE", "SEC_TYPE", "LABEL", "LABEL_RAW", "UUID", "UUID_SUB", "LOGUUID",
   "UUID_RAW", "EXT_JOURNAL", "USAGE", "VERSION", "MOUNT", "SBMAGIC",
   "SBMAGIC_OFFSET", "FSSIZE", "SYSTEM_ID", "PUBLISHER_ID", "APPLICATION_ID",
   "BOOT_SYSTEM_ID", "SBBADCSUM"]

/-- The partition key vocabulary as the specification lists it (section 6). -/
def spec_partition_keys : List String :=
  ["PTTYPE", "PTUUID", "PART_ENTRY_SCHEME", "PART_ENTRY_NAME", "PART_ENTRY_UUID",
   "PART_ENTRY_TYPE", "PART_ENTRY_FLAGS", "PART_ENTRY_NUMBER", "PART_ENTRY_OFFSET",
   "PART_ENTRY_DISK"]

/-! ## `usage` (lines 14-23) -/

/-- The seven `printf` calls of `usage()`. -/
def usage : List Event :=
  [ .printf "\nUsage: blkid-test [flags]\n\n" [],
    .printf "Options:\n" [],
    .printf "   -d --debug                           Enable debug\n" [],
    .printf "   -b --block-device [dev]              Specify block device\n" [],
    .printf "   -s --filter-superblock-type [type]   Superblock type to filter\n" [],
    .printf "   -p --filter-partition-type [type]    Partition type to filter\n" [],
    .printf "\n" [] ]

/-! ## The option loop (lines 85-133) -/

/-- How one pass through the `switch` ends: the loop goes on with new locals,
or `main` returns. -/
inductive Step
  | continue_ (v : Vars)
  | return_ (events : List Event) (status : Int)
  deriving DecidableEq, Repr

/-- The call `realloc(old, sizeof(char**) * cells)`, the `k`-th allocator call of
the run: on success a block of `cells` cells that keeps the old cells and leaves
the new ones indeterminate, on failure `NULL`. -/
def realloc (h : Heap) (k : Nat) (old : ListPtr) (cells : Nat) : ListPtr :=
  if h.realloc_ok k then
    some ((old.getD []).take cells ++
      List.replicate (cells - (old.getD []).length) h.indeterminate)
  else none

/-- The body of the `switch (opt)` for one option (lines 87-132).  An option
character without a `case` falls out of the `switch` and the loop goes on. -/
def option_case (h : Heap) (v : Vars) (g : Getopt) : Step :=
  if g.opt = 'd' then
    .continue_ { v with debug := true }
  else if g.opt = 'h' then
    .return_ usage 0
  else if g.opt = 'b' then
    match v.block_device_path with
    | none => .continue_ { v with block_device_path := some g.optarg }
    | some _ => .continue_ v
  else if g.opt = 's' then
    let len := v.superblock_filter_list_length + 1
    match realloc h v.reallocs v.superblock_filter_list (len + 1) with
    | some cells =>
      .continue_ { v with
        superblock_filter_list_length := len
        superblock_filter_list := some ((cells.set (len - 1) (some g.optarg)).set len none)
        reallocs := v.reallocs + 1 }
    | none => .return_ [.fprintf_stderr "error: could not malloc\n" []] 1
  else if g.opt = 'p' then
    let len := v.partition_filter_list_length + 1
    match realloc h v.reallocs v.partition_filter_list (len + 1) with
    | some cells =>
      .continue_ { v with
        partition_filter_list_length := len
        partition_filter_list := some ((cells.set (len - 1) (some g.optarg)).set len none)
        reallocs := v.reallocs + 1 }
    | none => .return_ [.fprintf_stderr "error: could not malloc\n" []] 1
  else if g.opt = '?' then
    .return_ usage 1
  else
    .continue_ v

/-- The `while ((opt = getopt_long(..)) > -1)` loop over the options that
`getopt_long` delivers; the empty list is `getopt_long` returning `-1`. -/
def option_loop (h : Heap) (v : Vars) : List Getopt → Step
  | [] => .continue_ v
  | g :: rest =>
    match option_case h v g with
    | .continue_ v' => option_loop h v' rest
    | .return_ events status => .return_ events status

/-! ## Probing (lines 135-256) -/

/-- The format `"%-"ALIGNMENT"s: %s\n"` of a text line. -/
def text_line : String := "%-" ++ ALIGNMENT ++ "s: %s\n"

/-- The format `"%-"ALIGNMENT"s: %lld bytes\n"` of a size line. -/
def bytes_line : String := "%-" ++ ALIGNMENT ++ "s: %lld bytes\n"

/-- A print loop, `for (i = 0; props[i] != NULL; i++)` (lines 213-220 and
241-248), started at the cell that heads the list: each non-`NULL` cell is looked
up, and printed when the return code is `> -1`; the loop ends at the first `NULL`
cell. -/
def print_props (lookup : String → Int × String) : CellArray → List Event
  | some key :: rest =>
    (.call (.blkid_probe_lookup_value key) (some (lookup key).1) ::
      (if (lookup key).1 > -1 then [.printf text_line [.str key, .str (lookup key).2]]
       else [])) ++ print_props lookup rest
  | _ => []

/-- What a scan stage did, and the status it made `main` return, if it did. -/
structure Stage where
  events : List Event
  returned : Option Int
  deriving DecidableEq, Repr

/-- The superblock filter block (lines 199-205): the filter call is made only
when the length counter is non-zero, and its failure only prints a warning. -/
def superblock_filter (v : Vars) (lib : Library) : List Event :=
  if v.superblock_filter_list_length ≠ 0 then
    .call (.blkid_probe_filter_superblocks_type .BLKID_FLTR_NOTIN v.superblock_filter_list)
        (some lib.filter_superblocks_type) ::
      (if lib.filter_superblocks_type < 0 then
        [.fprintf_stderr "warning: failed to filter superblock type(s)\n" []]
       else [])
  else []

/-- The partition filter block (lines 227-233). -/
def partition_filter (v : Vars) (lib : Library) : List Event :=
  if v.partition_filter_list_length ≠ 0 then
    .call (.blkid_probe_filter_partitions_type .BLKID_FLTR_NOTIN v.partition_filter_list)
        (some lib.filter_partitions_type) ::
      (if lib.filter_partitions_type < 0 then
        [.fprintf_stderr "warning: failed to filter partition type(s)\n" []]
       else [])
  else []

/-- The superblock stage: the test of line 191 on the result of
`blkid_probe_enable_superblocks(probe, 1)` and the body it guards (lines 193-220). -/
def superblock_stage (v : Vars) (lib : Library) (path : String) : Stage :=
  if lib.enable_superblocks > -1 then
    let flags : List Event :=
      [.call (.blkid_probe_set_superblocks_flags
        [.BLKID_SUBLKS_LABEL, .BLKID_SUBLKS_UUID, .BLKID_SUBLKS_TYPE, .BLKID_SUBLKS_SECTYPE,
         .BLKID_SUBLKS_USAGE, .BLKID_SUBLKS_VERSION, .BLKID_SUBLKS_BADCSUM]) none]
    let probe : List Event := [.call .blkid_do_fullprobe (some lib.superblock_fullprobe)]
    if lib.superblock_fullprobe < 0 then
      { events := flags ++ superblock_filter v lib ++ probe ++
          [.fprintf_stderr "error: blkid_do_probe() (%s)\n" [.str path]]
        returned := some 1 }
    else
      { events := flags ++ superblock_filter v lib ++ probe ++
          print_props lib.superblock_lookup superblock_props
        returned := none }
  else
    { events := [], returned := none }

/-- The partition stage: the test of line 225 on the result of
`blkid_probe_enable_partitions(probe, 1)` and the body it guards (lines 227-248). -/
def partition_stage (v : Vars) (lib : Library) (path : String) : Stage :=
  if lib.enable_partitions > -1 then
    let probe : List Event := [.call .blkid_do_fullprobe (some lib.partition_fullprobe)]
    if lib.partition_fullprobe < 0 then
      { events := partition_filter v lib ++ probe ++
          [.fprintf_stderr "error: blkid_do_probe() (%s)\n" [.str path]]
        returned := some 1 }
    else
      { events := partition_filter v lib ++ probe ++
          print_props lib.partition_lookup partition_props
        returned := none }
  else
    { events := [], returned := none }

/-- The scan part of `main` (lines 182-256), reached once the device is set and
the initial probe succeeded: geometry output, the superblock stage, the partition
stage, release. -/
def scan (v : Vars) (lib : Library) (path : String) (fd : Int) : Outcome :=
  let t4 : List Event :=
    [ .call (.blkid_get_dev_size fd) (some lib.blkid_get_dev_size),
      .call .blkid_probe_get_size (some lib.blkid_probe_get_size),
      .call .blkid_probe_get_sectorsize (some lib.blkid_probe_get_sectorsize),
      .printf text_line [.str "block device", .str path],
      .printf bytes_line [.str "device size", .num lib.blkid_get_dev_size],
      .printf bytes_line [.str "size", .num lib.blkid_probe_get_size],
      .printf bytes_line [.str "sector size", .num lib.blkid_probe_get_sectorsize],
      .call (.blkid_probe_enable_superblocks 1) (some lib.enable_superblocks) ]
  let sb := superblock_stage v lib path
  match sb.returned with
  | some status => { trace := t4 ++ sb.events, status := status }
  | none =>
    let t5 := t4 ++ sb.events ++
      [ .call (.blkid_probe_enable_superblocks 0) none,
        .call (.blkid_probe_enable_partitions 1) (some lib.enable_partitions) ]
    let pt := partition_stage v lib path
    match pt.returned with
    | some status => { trace := t5 ++ pt.events, status := status }
    | none =>
      { trace := t5 ++ pt.events ++
          [ .call (.blkid_probe_enable_partitions 0) none,
            .call .blkid_free_probe none,
            .call (.close fd) none ]
        status := 0 }

/-- The part of `main` after the option loop (lines 135-256). -/
def probe_device (v : Vars) (lib : Library) : Outcome :=
  let t0 : List Event :=
    [ .call (.blkid_init_debug (if v.debug = true then 0xFFFF else 0)) none,
      .call .blkid_new_probe (some lib.blkid_new_probe) ]
  match v.block_device_path with
  | none =>
    { trace := t0 ++ [.fprintf_stderr "error: no block device specified\n" []] ++ usage
      status := 1 }
  | some path =>
    if lib.blkid_new_probe = 0 then
      { trace := t0 ++ [.fprintf_stderr "error: could not initialize probe\n" []]
        status := 1 }
    else
      let fd := lib.open_ path
      let t1 := t0 ++ [.call (.open_ path) (some fd)]
      if fd < 0 then
        { trace := t1 ++
            [.fprintf_stderr "error: could not open block device (%s)\n" [.str path]]
          status := 1 }
      else
        let t2 := t1 ++ [.call (.blkid_probe_set_device fd) (some lib.blkid_probe_set_device)]
        if lib.blkid_probe_set_device < 0 then
          { trace := t2 ++
              [.fprintf_stderr "error: blkid_probe_set_device() (%s)\n" [.str path]]
            status := 1 }
        else
          let t3 := t2 ++
            [ .call (.blkid_probe_enable_superblocks 0) none,
              .call (.blkid_probe_enable_partitions 0) none,
              .call .blkid_do_probe (some lib.blkid_do_probe) ]
          if lib.blkid_do_probe < 0 then
            { trace := t3 ++ [.fprintf_stderr "error: blkid_do_probe() (%s)\n" [.str path]]
              status := 1 }
          else
            { trace := t3 ++ (scan v lib path fd).trace
              status := (scan v lib path fd).status }

/-- The program: the option loop, then the probing part unless the loop made
`main` return. -/
def main (h : Heap) (lib : Library) (argv : List Getopt) : Outcome :=
  match option_loop h Vars.init argv with
  | .continue_ v => probe_device v lib
  | .return_ events status => { trace := events, status := status }

/-! ## Observations on traces -/

/-- The key and value of a `printf` of a text line, `none` for any other event. -/
def property_line : Event → Option (String × String)
  | .printf format [.str key, .str value] =>
    if format = text_line then some (key, value) else none
  | _ => none

/-- The key/value lines a trace prints, in order. -/
def property_lines (t : List Event) : List (String × String) :=
  t.filterMap property_line

/-- The external calls of a trace, in order, without their results. -/
def calls (t : List Event) : List LibCall :=
  t.filterMap fun e => match e with
    | .call c _ => some c
    | _ => none

/-- The `printf` events of a trace: what the run writes to standard output. -/
def stdout_of (t : List Event) : List Event :=
  t.filter fun e => match e with
    | .printf _ _ => true
    | _ => false

/-- The `fprintf(stderr, ..)` events of a trace. -/
def stderr_of (t : List Event) : List Event :=
  t.filter fun e => match e with
    | .fprintf_stderr _ _ => true
    | _ => false

/-! ### The command line -/

/-- The arguments of the occurrences of option `c` on the command line, in
command-line order. -/
def option_args (c : Char) (argv : List Getopt) : List String :=
  (argv.filter fun g => g.opt = c).map Getopt.optarg

/-- The argument of the first `-b` on the command line, if there is one. -/
def first_block_device (argv : List Getopt) : Option String :=
  (argv.find? fun g => g.opt = 'b').map Getopt.optarg

/-- The block that holds `names` followed by a `NULL` terminator. -/
def terminated (names : List String) : CellArray :=
  names.map some ++ [none]

/-- The value of a filter list variable after the options `names` were collected:
the `NULL` pointer as long as nothing was collected, then the block of the names
with their terminator. -/
def collected : List String → ListPtr
  | [] => none
  | n :: names => some (terminated (n :: names))

/-! ### Failing steps -/

/-- The steps whose failure makes `main` return: a `NULL` probe, a negative file
descriptor from `open`, a negative result of `blkid_probe_set_device`,
`blkid_do_probe` or `blkid_do_fullprobe`. -/
def fatal : Event → Bool
  | .call .blkid_new_probe (some r) => r = 0
  | .call (.open_ _) (some r) => r < 0
  | .call (.blkid_probe_set_device _) (some r) => r < 0
  | .call .blkid_do_probe (some r) => r < 0
  | .call .blkid_do_fullprobe (some r) => r < 0
  | _ => false

/-- The events that follow the first failing step of a trace (none when no step
fails). -/
def after_fatal : List Event → List Event
  | [] => []
  | e :: t => if fatal e then t else after_fatal t

/-- An event that is neither an external call nor a line of device output (a
text line or a size line): a message on standard error or a line of `usage`. -/
def quiet : Event → Bool
  | .call _ _ => false
  | .printf format _ => format ≠ text_line ∧ format ≠ bytes_line
  | .fprintf_stderr _ _ => true

/-! ### Enabled categories -/

/-- The probing calls of a trace (`blkid_do_probe`, `blkid_do_fullprobe`), each
with the enabled state of the two categories at the call: the argument of the
most recent `blkid_probe_enable_superblocks` and `blkid_probe_enable_partitions`
call (`none` before the first one).  The arguments `sb` and `pt` are the state at
the start of the trace. -/
def probe_history (sb pt : Option Nat) : List Event → List (LibCall × Option Nat × Option Nat)
  | [] => []
  | .call (.blkid_probe_enable_superblocks n) _ :: t => probe_history (some n) pt t
  | .call (.blkid_probe_enable_partitions n) _ :: t => probe_history sb (some n) t
  | .call .blkid_do_probe _ :: t => (.blkid_do_probe, sb, pt) :: probe_history sb pt t
  | .call .blkid_do_fullprobe _ :: t => (.blkid_do_fullprobe, sb, pt) :: probe_history sb pt t
  | _ :: t => probe_history sb pt t

/-! ### Filters -/

/-- The superblock filter calls of a trace: mode and name list of each. -/
def superblock_filters (t : List Event) : List (FilterFlag × ListPtr) :=
  t.filterMap fun e => match e with
    | .call (.blkid_probe_filter_superblocks_type flag names) _ => some (flag, names)
    | _ => none

/-- The partition filter calls of a trace: mode and name list of each. -/
def partition_filters (t : List Event) : List (FilterFlag × ListPtr) :=
  t.filterMap fun e => match e with
    | .call (.blkid_probe_filter_partitions_type flag names) _ => some (flag, names)
    | _ => none

/-- The superblock scan stage is reached: `blkid_probe_enable_superblocks(probe, 1)`
was called and returned `> -1`. -/
def superblock_stage_reached (t : List Event) : Bool :=
  t.any fun e => match e with
    | .call (.blkid_probe_enable_superblocks 1) (some r) => r > -1
    | _ => false

/-- The partition scan stage is reached: `blkid_probe_enable_partitions(probe, 1)`
was called and returned `> -1`. -/
def partition_stage_reached (t : List Event) : Bool :=
  t.any fun e => match e with
    | .call (.blkid_probe_enable_partitions 1) (some r) => r > -1
    | _ => false

/-! ### Filter outcomes -/

/-- An event with the outcome of the filter calls erased: the result of a filter
call is dropped, the warning that reports a failed filter call disappears, every
other event stays as it is. -/
def erase_filter_outcome : Event → Option Event
  | .call (.blkid_probe_filter_superblocks_type flag names) _ =>
    some (.call (.blkid_probe_filter_superblocks_type flag names) none)
  | .call (.blkid_probe_filter_partitions_type flag names) _ =>
    some (.call (.blkid_probe_filter_partitions_type flag names) none)
  | .fprintf_stderr format args =>
    if format = "warning: failed to filter superblock type(s)\n" ∨
        format = "warning: failed to filter partition type(s)\n" then none
    else some (.fprintf_stderr format args)
  | e => some e

/-- The events of a trace that follow the first event satisfying `p` (none when
no event satisfies it). -/
def events_after (p : Event → Bool) : List Event → List Event
  | [] => []
  | e :: t => if p e then t else events_after p t

/-- The event is a superblock filter call. -/
def is_superblock_filter_call : Event → Bool
  | .call (.blkid_probe_filter_superblocks_type _ _) _ => true
  | _ => false

/-- The event is a partition filter call. -/
def is_partition_filter_call : Event → Bool
  | .call (.blkid_probe_filter_partitions_type _ _) _ => true
  | _ => false

/-- What a stage does once its filter call has returned `r`: the warning when
`r < 0`, then `blkid_do_fullprobe`, whose result is `probe`, then, unless that
result is `< 0`, the print loop of the stage over `tbl`. -/
def continuation (warning : String) (r probe : Int) (lookup : String → Int × String)
    (tbl : CellArray) : List Event :=
  (if r < 0 then [.fprintf_stderr warning []] else []) ++
    .call .blkid_do_fullprobe (some probe) ::
      (if probe < 0 then [] else print_props lookup tbl)

/-! ### The device handle -/

/-- The file descriptors a trace obtains from a successful `open`. -/
def opened (t : List Event) : List Int :=
  t.filterMap fun e => match e with
    | .call (.open_ _) (some fd) => if 0 ≤ fd then some fd else none
    | _ => none

/-- The paths a trace passes to `open`. -/
def opened_paths (t : List Event) : List String :=
  t.filterMap fun e => match e with
    | .call (.open_ path) _ => some path
    | _ => none

/-- The file descriptors a trace passes to `close`. -/
def closed (t : List Event) : List Int :=
  t.filterMap fun e => match e with
    | .call (.close fd) _ => some fd
    | _ => none

/-! ## Sample inputs -/

/-- An allocator that never fails and leaves a stale string in the cells it adds. -/
def sample_heap : Heap :=
  { realloc_ok := fun _ => true
    indeterminate := some "stale" }

/-- A run of the library on descriptor 3 in which every call succeeds, the
superblock scan finds an ext4 filesystem and the partition scan finds nothing. -/
def sample_library : Library :=
  { blkid_new_probe := 1
    open_ := fun _ => 3
    blkid_probe_set_device := 0
    blkid_do_probe := 1
    blkid_get_dev_size := 1048576
    blkid_probe_get_size := 1048576
    blkid_probe_get_sectorsize := 512
    enable_superblocks := 0
    filter_superblocks_type := 0
    superblock_fullprobe := 0
    superblock_lookup := fun k => if k = "TYPE" then (0, "ext4") else (-1, "")
    enable_partitions := 0
    filter_partitions_type := 0
    partition_fullprobe := 1
    partition_lookup := fun _ => (-1, "") }

/-- The command line `-b /dev/sda -s ext4 -s ext4 -p gpt -b /dev/sdb`. -/
def sample_argv : List Getopt :=
  [⟨'b', "/dev/sda"⟩, ⟨'s', "ext4"⟩, ⟨'s', "ext4"⟩, ⟨'p', "gpt"⟩, ⟨'b', "/dev/sdb"⟩]

/-- The locals after the option loop has run over `sample_argv`. -/
def sample_vars : Vars :=
  { debug := false
    block_device_path := some "/dev/sda"
    superblock_filter_list := some [some "ext4", some "ext4", none]
    partition_filter_list := some [some "gpt", none]
    superblock_filter_list_length := 2
    partition_filter_list_length := 1
    reallocs := 3 }

/-- The sample library, except that `blkid_probe_set_device` fails. -/
def set_device_fails : Library :=
  { sample_library with blkid_probe_set_device := -1 }

/-- The sample library, except that the initial `blkid_do_probe` fails. -/
def do_probe_fails : Library :=
  { sample_library with blkid_do_probe := -1 }

/-- The sample library, except that the superblock `blkid_do_fullprobe` fails. -/
def superblock_fullprobe_fails : Library :=
  { sample_library with superblock_fullprobe := -1 }

/-- The sample library, except that the partition `blkid_do_fullprobe` fails. -/
def partition_fullprobe_fails : Library :=
  { sample_library with partition_fullprobe := -1 }

/-- The sample library, except that both filter calls fail. -/
def filters_fail : Library :=
  { sample_library with filter_superblocks_type := -1, filter_partitions_type := -1 }

/-! ## The tables and the vocabulary -/

/-- C1: the table `superblock_props` is the specification's superblock key
vocabulary in the same order followed by the `NULL` terminator, so reading it up
to the terminator gives exactly that vocabulary; it has 20 keys, pairwise
distinct. -/
theorem superblock_props_is_vocabulary :
    superblock_props = spec_superblock_keys.map some ++ [none] ∧
    upto_null superblock_props = spec_superblock_keys ∧
    (upto_null superblock_props).length = 20 ∧
    (upto_null superblock_props).Nodup := by
  refine ⟨rfl, rfl, rfl, ?_⟩
  decide

/-- C2: the table `partition_props` is the specification's partition key
vocabulary in the same order followed by the `NULL` terminator; it has 10 keys,
pairwise distinct, and none of them is a key of `superblock_props`. -/
theorem partition_props_is_vocabulary :
    partition_props = spec_partition_keys.map some ++ [none] ∧
    upto_null partition_props = spec_partition_keys ∧
    (upto_null partition_props).length = 10 ∧
    (upto_null partition_props).Nodup ∧
    ∀ k ∈ upto_null partition_props, k ∉ upto_null superblock_props := by
  refine ⟨rfl, rfl, rfl, ?_, ?_⟩
  · decide
  · decide

/-! ## The print loops -/

/-- The six ways a run of the probing part can go: one for each of the five
early returns of lines 146-180, each with its whole trace, and one for the run
that reaches the scan part, whose trace is the seven calls up to the initial
probe followed by the trace of the scan part. -/
theorem probe_device_cases (v : Vars) (lib : Library) :
    (v.block_device_path = none ∧
      probe_device v lib =
        { trace :=
            [ .call (.blkid_init_debug (if v.debug = true then 0xFFFF else 0)) none,
              .call .blkid_new_probe (some lib.blkid_new_probe),
              .fprintf_stderr "error: no block device specified\n" [] ] ++ usage
          status := 1 }) ∨
    (∃ path, v.block_device_path = some path ∧ lib.blkid_new_probe = 0 ∧
      probe_device v lib =
        { trace :=
            [ .call (.blkid_init_debug (if v.debug = true then 0xFFFF else 0)) none,
              .call .blkid_new_probe (some lib.blkid_new_probe),
              .fprintf_stderr "error: could not initialize probe\n" [] ]
          status := 1 }) ∨
    (∃ path, v.block_device_path = some path ∧ lib.blkid_new_probe ≠ 0 ∧ lib.open_ path < 0 ∧
      probe_device v lib =
        { trace :=
            [ .call (.blkid_init_debug (if v.debug = true then 0xFFFF else 0)) none,
              .call .blkid_new_probe (some lib.blkid_new_probe),
              .call (.open_ path) (some (lib.open_ path)),
              .fprintf_stderr "error: could not open block device (%s)\n" [.str path] ]
          status := 1 }) ∨
    (∃ path, v.block_device_path = some path ∧ lib.blkid_new_probe ≠ 0 ∧ 0 ≤ lib.open_ path ∧
      lib.blkid_probe_set_device < 0 ∧
      probe_device v lib =
        { trace :=
            [ .call (.blkid_init_debug (if v.debug = true then 0xFFFF else 0)) none,
              .call .blkid_new_probe (some lib.blkid_new_probe),
              .call (.open_ path) (some (lib.open_ path)),
              .call (.blkid_probe_set_device (lib.open_ path)) (some lib.blkid_probe_set_device),
              .fprintf_stderr "error: blkid_probe_set_device() (%s)\n" [.str path] ]
          status := 1 }) ∨
    (∃ path, v.block_device_path = some path ∧ lib.blkid_new_probe ≠ 0 ∧ 0 ≤ lib.open_ path ∧
      0 ≤ lib.blkid_probe_set_device ∧ lib.blkid_do_probe < 0 ∧
      probe_device v lib =
        { trace :=
            [ .call (.blkid_init_debug (if v.debug = true then 0xFFFF else 0)) none,
              .call .blkid_new_probe (some lib.blkid_new_probe),
              .call (.open_ path) (some (lib.open_ path)),
              .call (.blkid_probe_set_device (lib.open_ path)) (some lib.blkid_probe_set_device),
              .call (.blkid_probe_enable_superblocks 0) none,
              .call (.blkid_probe_enable_partitions 0) none,
              .call .blkid_do_probe (some lib.blkid_do_probe),
              .fprintf_stderr "error: blkid_do_probe() (%s)\n" [.str path] ]
          status := 1 }) ∨
    (∃ path, v.block_device_path = some path ∧ lib.blkid_new_probe ≠ 0 ∧ 0 ≤ lib.open_ path ∧
      0 ≤ lib.blkid_probe_set_device ∧ 0 ≤ lib.blkid_do_probe ∧
      probe_device v lib =
        { trace :=
            [ .call (.blkid_init_debug (if v.debug = true then 0xFFFF else 0)) none,
              .call .blkid_new_probe (some lib.blkid_new_probe),
              .call (.open_ path) (some (lib.open_ path)),
              .call (.blkid_probe_set_device (lib.open_ path)) (some lib.blkid_probe_set_device),
              .call (.blkid_probe_enable_superblocks 0) none,
              .call (.blkid_probe_enable_partitions 0) none,
              .call .blkid_do_probe (some lib.blkid_do_probe) ] ++
            (scan v lib path (lib.open_ path)).trace
          status := (scan v lib path (lib.open_ path)).status }) := by
  cases hpath : v.block_device_path with
  | none => left; simp [probe_device, hpath]
  | some path =>
    right
    by_cases h1 : lib.blkid_new_probe = 0
    · left; exact ⟨path, rfl, h1, by simp [probe_device, hpath, h1]⟩
    right
    by_cases h2 : lib.open_ path < 0
    · left; exact ⟨path, rfl, h1, h2, by simp [probe_device, hpath, h1, h2]⟩
    right
    by_cases h3 : lib.blkid_probe_set_device < 0
    · left; exact ⟨path, rfl, h1, not_lt.mp h2, h3, by simp [probe_device, hpath, h1, h2, h3]⟩
    right
    by_cases h4 : lib.blkid_do_probe < 0
    · left
      exact ⟨path, rfl, h1, not_lt.mp h2, not_lt.mp h3, h4,
        by simp [probe_device, hpath, h1, h2, h3, h4]⟩
    right
    exact ⟨path, rfl, h1, not_lt.mp h2, not_lt.mp h3, not_lt.mp h4,
      by simp [probe_device, hpath, h1, h2, h3, h4]⟩

/-- Growing the block of the collected names by one cell and storing the new
name and the terminator gives the block of the names with the new one appended,
whatever the allocator left in the new cell. -/
theorem grow_collected (junk : Option String) (ss : List String) (x : String) :
    ((((collected ss).getD []).take (ss.length + 1 + 1) ++
        List.replicate (ss.length + 1 + 1 - ((collected ss).getD []).length) junk).set
          (ss.length + 1 - 1) (some x)).set (ss.length + 1) none =
      terminated (ss ++ [x]) := by
  cases ss with
  | nil => rfl
  | cons a as =>
    have hlen : (terminated (a :: as)).length = as.length + 1 + 1 := by simp [terminated]
    have htake : (terminated (a :: as)).take (as.length + 1 + 1 + 1) = terminated (a :: as) :=
      List.take_of_length_le (by omega)
    have hmap : (List.map some (a :: as)).length = as.length + 1 := by simp
    simp only [collected, Option.getD_some, List.length_cons, htake, hlen]
    have h1 : as.length + 1 + 1 + 1 - (as.length + 1 + 1) = 1 := by omega
    rw [h1]
    simp only [terminated, List.replicate, List.append_assoc, List.singleton_append,
      Nat.add_sub_cancel]
    rw [List.set_append_right _ _ (by omega), List.set_append_right _ _ (by omega)]
    simp [hmap]

/-- One pass through the `switch` that lets the loop go on appends the argument
of a `-s` to the superblock list and of a `-p` to the partition list, and leaves
the other list as it was. -/
theorem option_case_collects (h : Heap) (v v' : Vars) (g : Getopt) (ss ps : List String)
    (hs : v.superblock_filter_list = collected ss)
    (hsl : v.superblock_filter_list_length = ss.length)
    (hp : v.partition_filter_list = collected ps)
    (hpl : v.partition_filter_list_length = ps.length)
    (hc : option_case h v g = .continue_ v') :
    v'.superblock_filter_list = collected (ss ++ option_args 's' [g]) ∧
    v'.superblock_filter_list_length = (ss ++ option_args 's' [g]).length ∧
    v'.partition_filter_list = collected (ps ++ option_args 'p' [g]) ∧
    v'.partition_filter_list_length = (ps ++ option_args 'p' [g]).length := by
  unfold option_case at hc
  split_ifs at hc with hd hh hb hs' hp' hq
  · cases hc
    simp [option_args, hd, hs, hsl, hp, hpl]
  · cases hv : v.block_device_path <;> simp only [hv] at hc <;> cases hc <;>
      simp [option_args, hb, hs, hsl, hp, hpl]
  · simp only [realloc] at hc
    split_ifs at hc with hok
    · simp only [Step.continue_.injEq] at hc
      subst hc
      have hg := grow_collected h.indeterminate ss g.optarg
      simp only [hs, hsl]
      refine ⟨?_, ?_, ?_, ?_⟩
      · simp only [option_args, hs', List.filter_cons, decide_True, if_true, List.filter_nil,
          List.map_cons, List.map_nil, hg]
        cases ss <;> simp [collected]
      · simp [option_args, hs']
      · simp [option_args, hs', hp]
      · simp [option_args, hs', hpl]
  · simp only [realloc] at hc
    split_ifs at hc with hok
    · simp only [Step.continue_.injEq] at hc
      subst hc
      have hg := grow_collected h.indeterminate ps g.optarg
      simp only [hp, hpl]
      refine ⟨?_, ?_, ?_, ?_⟩
      · simp [option_args, hp', hs]
      · simp [option_args, hp', hsl]
      · simp only [option_args, hp', List.filter_cons, decide_True, if_true, List.filter_nil,
          List.map_cons, List.map_nil, hg]
        cases ps <;> simp [collected]
      · simp [option_args, hp']
  · cases hc
    simp [option_args, hs', hp', hs, hsl, hp, hpl]

/-- The arguments of an option on a command line: those of the first result, then
those of the rest. -/
theorem option_args_cons (c : Char) (g : Getopt) (rest : List Getopt) :
    option_args c (g :: rest) = option_args c [g] ++ option_args c rest := by
  by_cases hg : g.opt = c <;> simp [option_args, List.filter_cons, hg]

/-- The option loop, when it runs to completion, appends to each filter list the
arguments of its option in command-line order. -/
theorem option_loop_collects (h : Heap) (argv : List Getopt) :
    ∀ (v v' : Vars) (ss ps : List String),
      v.superblock_filter_list = collected ss →
      v.superblock_filter_list_length = ss.length →
      v.partition_filter_list = collected ps →
      v.partition_filter_list_length = ps.length →
      option_loop h v argv = .continue_ v' →
      v'.superblock_filter_list = collected (ss ++ option_args 's' argv) ∧
      v'.superblock_filter_list_length = (ss ++ option_args 's' argv).length ∧
      v'.partition_filter_list = collected (ps ++ option_args 'p' argv) ∧
      v'.partition_filter_list_length = (ps ++ option_args 'p' argv).length := by
  induction argv with
  | nil =>
    intro v v' ss ps hs hsl hp hpl hloop
    simp only [option_loop, Step.continue_.injEq] at hloop
    subst hloop
    simp [option_args, hs, hsl, hp, hpl]
  | cons g rest ih =>
    intro v v' ss ps hs hsl hp hpl hloop
    simp only [option_loop] at hloop
    cases hc : option_case h v g with
    | return_ events status => simp [hc] at hloop
    | continue_ w =>
      simp only [hc] at hloop
      obtain ⟨h1, h2, h3, h4⟩ := option_case_collects h v w g ss ps hs hsl hp hpl hc
      have := ih w v' _ _ h1 h2 h3 h4 hloop
      rw [option_args_cons 's' g rest, option_args_cons 'p' g rest]
      simpa [List.append_assoc] using this

/-- One pass through the `switch` sets the device path only while it is `NULL`. -/
theorem option_case_path (h : Heap) (v v' : Vars) (g : Getopt)
    (hc : option_case h v g = .continue_ v') :
    v'.block_device_path = v.block_device_path.or (first_block_device [g]) := by
  unfold option_case at hc
  split_ifs at hc with hd hh hb hs' hp' hq
  · cases hc
    cases hv : v.block_device_path <;> simp [first_block_device, hd, hv]
  · cases hv : v.block_device_path <;> simp only [hv] at hc <;> cases hc <;>
      simp [first_block_device, hb, hv]
  · simp only [realloc] at hc
    split_ifs at hc with hok
    · cases hc
      cases hv : v.block_device_path <;> simp [first_block_device, hs', hv]
  · simp only [realloc] at hc
    split_ifs at hc with hok
    · cases hc
      cases hv : v.block_device_path <;> simp [first_block_device, hp', hv]
  · cases hc
    cases hv : v.block_device_path <;> simp [first_block_device, hb, hv]

/-- The option loop, when it runs to completion, leaves a device path that was
already set alone and otherwise sets it to the argument of the first `-b`. -/
theorem option_loop_path (h : Heap) (argv : List Getopt) :
    ∀ (v v' : Vars), option_loop h v argv = .continue_ v' →
      v'.block_device_path = v.block_device_path.or (first_block_device argv) := by
  induction argv with
  | nil =>
    intro v v' hloop
    simp only [option_loop, Step.continue_.injEq] at hloop
    subst hloop
    cases hv : v.block_device_path <;> simp [first_block_device]
  | cons g rest ih =>
    intro v v' hloop
    simp only [option_loop] at hloop
    cases hc : option_case h v g with
    | return_ events status => simp [hc] at hloop
    | continue_ w =>
      simp only [hc] at hloop
      rw [ih w v' hloop, option_case_path h v w g hc]
      cases hv : v.block_device_path <;> by_cases hb : g.opt = 'b' <;>
        simp [first_block_device, List.find?_cons, hb]

/-- The option loop runs to completion when no option is `-h` or unknown and no
allocation fails. -/
theorem option_loop_completes (h : Heap) (hok : ∀ k, h.realloc_ok k = true)
    (argv : List Getopt) :
    ∀ v : Vars, (∀ g ∈ argv, g.opt ≠ 'h' ∧ g.opt ≠ '?') →
      ∃ v', option_loop h v argv = .continue_ v' := by
  induction argv with
  | nil => intro v _; exact ⟨v, rfl⟩
  | cons g rest ih =>
    intro v hopts
    obtain ⟨hh, hq⟩ := hopts g (List.mem_cons_self g rest)
    have hrest : ∀ g' ∈ rest, g'.opt ≠ 'h' ∧ g'.opt ≠ '?' :=
      fun g' hg' => hopts g' (List.mem_cons_of_mem g hg')
    have hstep : ∃ w, option_case h v g = .continue_ w := by
      unfold option_case
      split_ifs with hd hb hs' hp'
      · exact ⟨_, rfl⟩
      · cases v.block_device_path <;> exact ⟨_, rfl⟩
      · simp only [realloc, hok, if_true]; exact ⟨_, rfl⟩
      · simp only [realloc, hok, if_true]; exact ⟨_, rfl⟩
      · exact ⟨_, rfl⟩
    obtain ⟨w, hw⟩ := hstep
    obtain ⟨v', hv'⟩ := ih w hrest
    exact ⟨v', by simp only [option_loop, hw, hv']⟩

/-- One pass through the `switch` that lets the loop go on changes a filter list
and its counter only for the option of that list. -/
theorem option_case_other_list (h : Heap) (w w' : Vars) (g : Getopt)
    (hc : option_case h w g = .continue_ w') :
    (g.opt ≠ 'p' →
      w'.partition_filter_list = w.partition_filter_list ∧
      w'.partition_filter_list_length = w.partition_filter_list_length) ∧
    (g.opt ≠ 's' →
      w'.superblock_filter_list = w.superblock_filter_list ∧
      w'.superblock_filter_list_length = w.superblock_filter_list_length) := by
  unfold option_case at hc
  split_ifs at hc with hd hh hb hs' hp' hq
  · cases hc; exact ⟨fun _ => ⟨rfl, rfl⟩, fun _ => ⟨rfl, rfl⟩⟩
  · cases hv : w.block_device_path <;> simp only [hv] at hc <;> cases hc <;>
      exact ⟨fun _ => ⟨rfl, rfl⟩, fun _ => ⟨rfl, rfl⟩⟩
  · simp only [realloc] at hc
    split_ifs at hc with hok
    · cases hc; exact ⟨fun _ => ⟨rfl, rfl⟩, fun hne => absurd hs' hne⟩
  · simp only [realloc] at hc
    split_ifs at hc with hok
    · cases hc; exact ⟨fun hne => absurd hp' hne, fun _ => ⟨rfl, rfl⟩⟩
  · cases hc; exact ⟨fun _ => ⟨rfl, rfl⟩, fun _ => ⟨rfl, rfl⟩⟩

/-- The option loop over the sample command line ends with the sample locals. -/
theorem option_loop_sample :
    option_loop sample_heap Vars.init sample_argv = .continue_ sample_vars := by
  rfl

/-- C6 (as stated, refuted): on the command line `-b /dev/sda -p gpt`, which has
no `-s`, option parsing runs to completion and the superblock filter list is the
`NULL` pointer, not a block that holds the (empty) sequence of `-s` arguments
followed by a `NULL` terminator. -/
theorem superblock_filter_list_null_without_option :
    option_loop sample_heap Vars.init [⟨'b', "/dev/sda"⟩, ⟨'p', "gpt"⟩] =
      .continue_
        { debug := false
          block_device_path := some "/dev/sda"
          superblock_filter_list := none
          partition_filter_list := some [some "gpt", none]
          superblock_filter_list_length := 0
          partition_filter_list_length := 1
          reallocs := 1 } ∧
    (none : ListPtr) ≠
      some (terminated (option_args 's' [⟨'b', "/dev/sda"⟩, ⟨'p', "gpt"⟩])) := by
  exact ⟨rfl, by simp⟩

/-- C6 (amended): option parsing runs to completion when no option is `-h` or
unknown and no allocation fails; whenever it runs to completion, the length
counter of each filter list is the number of occurrences of its option (`-s` for
superblocks, `-p` for partitions), and the list is the block of all the arguments
of that option in command-line order, repeated names kept, followed by a `NULL`
terminator when the option occurred at least once, and the `NULL` pointer when
it did not occur.  A `-s` never changes the partition list or its counter, and a
`-p` never changes the superblock list or its counter. -/
theorem filter_lists_collect_option_arguments (h : Heap) (argv : List Getopt) :
    ((∀ k, h.realloc_ok k = true) → (∀ g ∈ argv, g.opt ≠ 'h' ∧ g.opt ≠ '?') →
      ∃ v, option_loop h Vars.init argv = .continue_ v) ∧
    (∀ v, option_loop h Vars.init argv = .continue_ v →
      v.superblock_filter_list_length = (option_args 's' argv).length ∧
      (option_args 's' argv ≠ [] →
        v.superblock_filter_list = some (option_args 's' argv |>.map some |>.append [none])) ∧
      (option_args 's' argv = [] → v.superblock_filter_list = none) ∧
      v.partition_filter_list_length = (option_args 'p' argv).length ∧
      (option_args 'p' argv ≠ [] →
        v.partition_filter_list = some (option_args 'p' argv |>.map some |>.append [none])) ∧
      (option_args 'p' argv = [] → v.partition_filter_list = none)) ∧
    (∀ (w w' : Vars) (x : String), option_case h w ⟨'s', x⟩ = .continue_ w' →
      w'.partition_filter_list = w.partition_filter_list ∧
      w'.partition_filter_list_length = w.partition_filter_list_length) ∧
    (∀ (w w' : Vars) (x : String), option_case h w ⟨'p', x⟩ = .continue_ w' →
      w'.superblock_filter_list = w.superblock_filter_list ∧
      w'.superblock_filter_list_length = w.superblock_filter_list_length) := by
  refine ⟨fun hok hopts => option_loop_completes h hok argv Vars.init hopts, ?_, ?_, ?_⟩
  · intro v hloop
    obtain ⟨h1, h2, h3, h4⟩ :=
      option_loop_collects h argv Vars.init v [] [] rfl rfl rfl rfl hloop
    simp only [List.nil_append] at h1 h2 h3 h4
    refine ⟨h2, ?_, ?_, h4, ?_, ?_⟩
    · intro hne
      rw [h1]
      cases hargs : option_args 's' argv with
      | nil => exact absurd hargs hne
      | cons a as => rfl
    · intro hnil
      rw [h1, hnil]; rfl
    · intro hne
      rw [h3]
      cases hargs : option_args 'p' argv with
      | nil => exact absurd hargs hne
      | cons a as => rfl
    · intro hnil
      rw [h3, hnil]; rfl
  · intro w w' x hc
    exact (option_case_other_list h w w' ⟨'s', x⟩ hc).1 (show 's' ≠ 'p' by decide)
  · intro w w' x hc
    exact (option_case_other_list h w w' ⟨'p', x⟩ hc).2 (show 'p' ≠ 's' by decide)

/-- C6 (amended), on the sample command line: the loop completes, the superblock
list is `ext4, ext4, NULL` with counter 2 and the partition list `gpt, NULL` with
counter 1. -/
theorem filter_lists_collect_option_arguments_witness :
    sample_vars.superblock_filter_list_length = (option_args 's' sample_argv).length ∧
    (option_args 's' sample_argv ≠ [] →
      sample_vars.superblock_filter_list =
        some (option_args 's' sample_argv |>.map some |>.append [none])) ∧
    (option_args 's' sample_argv = [] → sample_vars.superblock_filter_list = none) ∧
    sample_vars.partition_filter_list_length = (option_args 'p' sample_argv).length ∧
    (option_args 'p' sample_argv ≠ [] →
      sample_vars.partition_filter_list =
        some (option_args 'p' sample_argv |>.map some |>.append [none])) ∧
    (option_args 'p' sample_argv = [] → sample_vars.partition_filter_list = none) :=
  (filter_lists_collect_option_arguments sample_heap sample_argv).2.1 sample_vars
    option_loop_sample

/-! ## The blocks of the scan part -/

/-- Every event of a print loop is a lookup or a text line. -/
theorem mem_print_props (lookup : String → Int × String) (tbl : CellArray) (e : Event)
    (he : e ∈ print_props lookup tbl) :
    (∃ k r, e = .call (.blkid_probe_lookup_value k) (some r)) ∨
    (∃ k val, e = .printf text_line [.str k, .str val]) := by
  induction tbl with
  | nil => simp [print_props] at he
  | cons c rest ih =>
    cases c with
    | none => simp [print_props] at he
    | some key =>
      simp only [print_props, List.cons_append, List.mem_cons, List.mem_append] at he
      rcases he with he | he | he
      · exact Or.inl ⟨key, _, he⟩
      · split_ifs at he
        · simp only [List.mem_singleton] at he
          exact Or.inr ⟨key, _, he⟩
        · simp at he
      · exact ih he

/-- Every event of the superblock filter block is the filter call or its warning. -/
theorem mem_superblock_filter (v : Vars) (lib : Library) (e : Event)
    (he : e ∈ superblock_filter v lib) :
    e = .call (.blkid_probe_filter_superblocks_type .BLKID_FLTR_NOTIN v.superblock_filter_list)
          (some lib.filter_superblocks_type) ∨
    e = .fprintf_stderr "warning: failed to filter superblock type(s)\n" [] := by
  unfold superblock_filter at he
  split_ifs at he <;> simp at he <;> tauto

/-- Every event of the partition filter block is the filter call or its warning. -/
theorem mem_partition_filter (v : Vars) (lib : Library) (e : Event)
    (he : e ∈ partition_filter v lib) :
    e = .call (.blkid_probe_filter_partitions_type .BLKID_FLTR_NOTIN v.partition_filter_list)
          (some lib.filter_partitions_type) ∨
    e = .fprintf_stderr "warning: failed to filter partition type(s)\n" [] := by
  unfold partition_filter at he
  split_ifs at he <;> simp at he <;> tauto

/-- An observation that ignores lookups and text lines sees nothing in a print
loop. -/
theorem filterMap_print_props {α : Type} (f : Event → Option α)
    (lookup : String → Int × String) (tbl : CellArray)
    (hc : ∀ k r, f (.call (.blkid_probe_lookup_value k) r) = none)
    (hp : ∀ k val, f (.printf text_line [.str k, .str val]) = none) :
    (print_props lookup tbl).filterMap f = [] := by
  rw [List.filterMap_eq_nil_iff]
  intro e he
  rcases mem_print_props lookup tbl e he with ⟨k, r, rfl⟩ | ⟨k, val, rfl⟩
  · exact hc k _
  · exact hp k val

/-- How the option loop can make `main` return: `usage` with status 0 (`-h`),
`usage` with status 1 (unknown option), or the allocation message with status 1. -/
theorem option_loop_return (h : Heap) (argv : List Getopt) :
    ∀ (v : Vars) (events : List Event) (status : Int),
      option_loop h v argv = .return_ events status →
      (events = usage ∧ status = 0) ∨ (events = usage ∧ status = 1) ∨
      (events = [.fprintf_stderr "error: could not malloc\n" []] ∧ status = 1) := by
  induction argv with
  | nil => intro v events status hl; simp [option_loop] at hl
  | cons g rest ih =>
    intro v events status hl
    simp only [option_loop] at hl
    cases hc : option_case h v g with
    | continue_ w => simp only [hc] at hl; exact ih w events status hl
    | return_ ev st =>
      simp only [hc, Step.return_.injEq] at hl
      obtain ⟨rfl, rfl⟩ := hl
      unfold option_case at hc
      simp only [realloc] at hc
      split_ifs at hc <;> try (cases hc; simp)
      cases hv : v.block_device_path <;> simp [hv] at hc

/-! ## Filters -/

/-- The filter calls of the four blocks of the scan part. -/
theorem filters_of_blocks (v : Vars) (lib : Library) (lookup : String → Int × String)
    (tbl : CellArray) :
    superblock_filters (print_props lookup tbl) = [] ∧
    partition_filters (print_props lookup tbl) = [] ∧
    superblock_filters (partition_filter v lib) = [] ∧
    partition_filters (superblock_filter v lib) = [] ∧
    superblock_filters (superblock_filter v lib) =
      (if v.superblock_filter_list_length ≠ 0 then
        [(FilterFlag.BLKID_FLTR_NOTIN, v.superblock_filter_list)] else []) ∧
    partition_filters (partition_filter v lib) =
      (if v.partition_filter_list_length ≠ 0 then
        [(FilterFlag.BLKID_FLTR_NOTIN, v.partition_filter_list)] else []) := by
  refine ⟨filterMap_print_props _ _ _ (fun _ _ => rfl) (fun _ _ => rfl),
    filterMap_print_props _ _ _ (fun _ _ => rfl) (fun _ _ => rfl), ?_, ?_, ?_, ?_⟩
  · unfold partition_filter superblock_filters
    split_ifs <;> simp
  · unfold superblock_filter partition_filters
    split_ifs <;> simp
  · unfold superblock_filter superblock_filters
    split_ifs <;> simp
  · unfold partition_filter partition_filters
    split_ifs <;> simp

/-- The four blocks of the scan part hold no enable call. -/
theorem stage_reached_of_blocks (v : Vars) (lib : Library) (lookup : String → Int × String)
    (tbl : CellArray) :
    superblock_stage_reached (print_props lookup tbl) = false ∧
    partition_stage_reached (print_props lookup tbl) = false ∧
    superblock_stage_reached (superblock_filter v lib) = false ∧
    partition_stage_reached (superblock_filter v lib) = false ∧
    superblock_stage_reached (partition_filter v lib) = false ∧
    partition_stage_reached (partition_filter v lib) = false := by
  simp only [superblock_stage_reached, partition_stage_reached, List.any_eq_false]
  refine ⟨?_, ?_, ?_, ?_, ?_, ?_⟩ <;> intro e he
  · rcases mem_print_props _ _ e he with ⟨k, r, rfl⟩ | ⟨k, val, rfl⟩ <;> simp
  · rcases mem_print_props _ _ e he with ⟨k, r, rfl⟩ | ⟨k, val, rfl⟩ <;> simp
  · rcases mem_superblock_filter _ _ e he with rfl | rfl <;> simp
  · rcases mem_superblock_filter _ _ e he with rfl | rfl <;> simp
  · rcases mem_partition_filter _ _ e he with rfl | rfl <;> simp
  · rcases mem_partition_filter _ _ e he with rfl | rfl <;> simp

/-- The filter calls of the scan part and the stages it reaches. -/
theorem filters_scan (v : Vars) (lib : Library) (path : String) (fd : Int) :
    superblock_filters (scan v lib path fd).trace =
      (if lib.enable_superblocks > -1 ∧ v.superblock_filter_list_length ≠ 0 then
        [(FilterFlag.BLKID_FLTR_NOTIN, v.superblock_filter_list)] else []) ∧
    partition_filters (scan v lib path fd).trace =
      (if (lib.enable_superblocks > -1 → 0 ≤ lib.superblock_fullprobe) ∧
          lib.enable_partitions > -1 ∧ v.partition_filter_list_length ≠ 0 then
        [(FilterFlag.BLKID_FLTR_NOTIN, v.partition_filter_list)] else []) ∧
    superblock_stage_reached (scan v lib path fd).trace = decide (lib.enable_superblocks > -1) ∧
    partition_stage_reached (scan v lib path fd).trace =
      decide ((lib.enable_superblocks > -1 → 0 ≤ lib.superblock_fullprobe) ∧
        lib.enable_partitions > -1) := by
  obtain ⟨a1, a2, a3, a4, a5, a6⟩ := filters_of_blocks v lib lib.superblock_lookup superblock_props
  obtain ⟨b1, b2, -, -, -, -⟩ := filters_of_blocks v lib lib.partition_lookup partition_props
  obtain ⟨c1, c2, c3, c4, c5, c6⟩ :=
    stage_reached_of_blocks v lib lib.superblock_lookup superblock_props
  obtain ⟨d1, d2, -, -, -, -⟩ :=
    stage_reached_of_blocks v lib lib.partition_lookup partition_props
  simp only [superblock_filters, partition_filters, superblock_stage_reached,
    partition_stage_reached] at *
  unfold scan superblock_stage partition_stage
  by_cases h1 : lib.enable_superblocks > -1 <;> by_cases h2 : lib.superblock_fullprobe < 0 <;>
    by_cases h3 : lib.enable_partitions > -1 <;> by_cases h4 : lib.partition_fullprobe < 0 <;>
    simp only [h1, h2, h3, h4, if_true, if_false] <;>
    simp [a1, a2, a3, a4, a5, a6, b1, b2, c1, c2, c3, c4, c5, c6, d1, d2, h1, h2, h3, h4,
      not_lt.mp, not_le.mpr]

/-- The filter calls of a run of the probing part, in terms of the locals. -/
theorem filters_probe_device (v : Vars) (lib : Library) :
    (superblock_filters (probe_device v lib).trace).length ≤ 1 ∧
    (partition_filters (probe_device v lib).trace).length ≤ 1 ∧
    (v.superblock_filter_list_length = 0 → superblock_filters (probe_device v lib).trace = []) ∧
    (v.partition_filter_list_length = 0 → partition_filters (probe_device v lib).trace = []) ∧
    (superblock_stage_reached (probe_device v lib).trace = true →
      superblock_filters (probe_device v lib).trace =
        if v.superblock_filter_list_length ≠ 0 then
          [(FilterFlag.BLKID_FLTR_NOTIN, v.superblock_filter_list)] else []) ∧
    (partition_stage_reached (probe_device v lib).trace = true →
      partition_filters (probe_device v lib).trace =
        if v.partition_filter_list_length ≠ 0 then
          [(FilterFlag.BLKID_FLTR_NOTIN, v.partition_filter_list)] else []) := by
  rcases probe_device_cases v lib with ⟨_, h⟩ | ⟨_, _, _, h⟩ | ⟨_, _, _, _, h⟩ |
    ⟨_, _, _, _, _, h⟩ | ⟨_, _, _, _, _, _, h⟩ | ⟨path, hpath, _, _, _, _, h⟩
  · rw [h]
    simp [superblock_filters, partition_filters, superblock_stage_reached,
      partition_stage_reached, usage]
  · rw [h]
    simp [superblock_filters, partition_filters, superblock_stage_reached,
      partition_stage_reached]
  · rw [h]
    simp [superblock_filters, partition_filters, superblock_stage_reached,
      partition_stage_reached]
  · rw [h]
    simp [superblock_filters, partition_filters, superblock_stage_reached,
      partition_stage_reached]
  · rw [h]
    simp [superblock_filters, partition_filters, superblock_stage_reached,
      partition_stage_reached]
  · rw [h]
    obtain ⟨f1, f2, f3, f4⟩ := filters_scan v lib path (lib.open_ path)
    simp only [superblock_filters, partition_filters, superblock_stage_reached,
      partition_stage_reached] at f1 f2 f3 f4 ⊢
    simp only [List.filterMap_append, List.any_append, f1, f2, f3, f4]
    simp only [List.filterMap_cons, List.filterMap_nil, List.any_cons, List.any_nil,
      List.nil_append, Bool.false_or, Bool.or_false]
    refine ⟨?_, ?_, ?_, ?_, ?_, ?_⟩
    · split_ifs <;> simp
    · split_ifs <;> simp
    · intro h0; simp [h0]
    · intro h0; simp [h0]
    · intro hr
      simp only [decide_eq_true_eq] at hr
      by_cases hl : v.superblock_filter_list_length = 0
      · simp [hl]
      · rw [if_pos ⟨hr, hl⟩, if_pos hl]
    · intro hr
      simp only [decide_eq_true_eq] at hr
      by_cases hl : v.partition_filter_list_length = 0
      · simp [hl]
      · rw [if_pos ⟨hr.1, hr.2, hl⟩, if_pos hl]

/-- C4: in every run each category gets at most one filter call, and none when
no filter option of that category was given; once the scan stage of a category
is reached (its enable call returned `> -1`), the filter call is made if and only
if at least one filter option of the category was given, and it then passes
`BLKID_FLTR_NOTIN` (exclude) with exactly the collected arguments of that option,
in command-line order, followed by the `NULL` terminator. -/
theorem filter_is_set_iff_filter_option_given (h : Heap) (lib : Library)
    (argv : List Getopt) :
    (superblock_filters (main h lib argv).trace).length ≤ 1 ∧
    (partition_filters (main h lib argv).trace).length ≤ 1 ∧
    (option_args 's' argv = [] → superblock_filters (main h lib argv).trace = []) ∧
    (option_args 'p' argv = [] → partition_filters (main h lib argv).trace = []) ∧
    (superblock_stage_reached (main h lib argv).trace = true →
      superblock_filters (main h lib argv).trace =
        if option_args 's' argv = [] then []
        else [(FilterFlag.BLKID_FLTR_NOTIN, some (terminated (option_args 's' argv)))]) ∧
    (partition_stage_reached (main h lib argv).trace = true →
      partition_filters (main h lib argv).trace =
        if option_args 'p' argv = [] then []
        else [(FilterFlag.BLKID_FLTR_NOTIN, some (terminated (option_args 'p' argv)))]) := by
  unfold main
  cases hloop : option_loop h Vars.init argv with
  | return_ events status =>
    rcases option_loop_return h argv Vars.init events status hloop with
      ⟨rfl, _⟩ | ⟨rfl, _⟩ | ⟨rfl, _⟩ <;>
    simp [superblock_filters, partition_filters, superblock_stage_reached,
      partition_stage_reached, usage]
  | continue_ v =>
    obtain ⟨h1, h2, h3, h4⟩ :=
      option_loop_collects h argv Vars.init v [] [] rfl rfl rfl rfl hloop
    simp only [List.nil_append] at h1 h2 h3 h4
    obtain ⟨p1, p2, p3, p4, p5, p6⟩ := filters_probe_device v lib
    simp only [h1, h2, h3, h4] at p3 p4 p5 p6
    refine ⟨p1, p2, ?_, ?_, ?_, ?_⟩
    · intro hnil; exact p3 (by simp [hnil])
    · intro hnil; exact p4 (by simp [hnil])
    · intro hr
      rw [p5 hr]
      cases hargs : option_args 's' argv <;> simp [collected]
    · intro hr
      rw [p6 hr]
      cases hargs : option_args 'p' argv <;> simp [collected]

/-- C4, on the sample run: the superblock stage is reached, two `-s ext4` were
given, and the one superblock filter call excludes `ext4, ext4, NULL`. -/
theorem filter_is_set_iff_filter_option_given_witness :
    superblock_stage_reached (main sample_heap sample_library sample_argv).trace = true ∧
    superblock_filters (main sample_heap sample_library sample_argv).trace =
      (if option_args 's' sample_argv = [] then []
       else [(FilterFlag.BLKID_FLTR_NOTIN, some (terminated (option_args 's' sample_argv)))]) :=
  ⟨by decide,
    (filter_is_set_iff_filter_option_given sample_heap sample_library sample_argv).2.2.2.2.1
      (by decide)⟩

/-! ## The device handle -/

/-- The descriptors the scan part opens and closes: it opens none, and closes
its descriptor exactly when it ends with status 0. -/
theorem closed_scan (v : Vars) (lib : Library) (path : String) (fd : Int) :
    opened (scan v lib path fd).trace = [] ∧
    closed (scan v lib path fd).trace = if (scan v lib path fd).status = 0 then [fd] else [] := by
  have b1 : ∀ lookup tbl, opened (print_props lookup tbl) = [] := fun lookup tbl =>
    filterMap_print_props _ lookup tbl (fun _ _ => rfl) (fun _ _ => rfl)
  have b2 : ∀ lookup tbl, closed (print_props lookup tbl) = [] := fun lookup tbl =>
    filterMap_print_props _ lookup tbl (fun _ _ => rfl) (fun _ _ => rfl)
  have b3 : opened (superblock_filter v lib) = [] ∧ closed (superblock_filter v lib) = [] := by
    unfold superblock_filter opened closed
    constructor <;> split_ifs <;> simp
  have b4 : opened (partition_filter v lib) = [] ∧ closed (partition_filter v lib) = [] := by
    unfold partition_filter opened closed
    constructor <;> split_ifs <;> simp
  obtain ⟨b3, b5⟩ := b3
  obtain ⟨b4, b6⟩ := b4
  simp only [opened, closed] at b1 b2 b3 b4 b5 b6 ⊢
  unfold scan superblock_stage partition_stage
  generalize superblock_props = sb_table
  generalize partition_props = pt_table
  by_cases h1 : lib.enable_superblocks > -1 <;> by_cases h2 : lib.superblock_fullprobe < 0 <;>
    by_cases h3 : lib.enable_partitions > -1 <;> by_cases h4 : lib.partition_fullprobe < 0 <;>
    simp only [h1, h2, h3, h4, if_true, if_false] <;>
    simp [b1, b2, b3, b4, b5, b6]

/-- The device handle over a run of the probing part: the descriptor a
successful `open` returned is closed when the run ends with status 0, and no
descriptor is closed when it ends with any other status. -/
theorem closed_probe_device (v : Vars) (lib : Library) :
    closed (probe_device v lib).trace =
      if (probe_device v lib).status = 0 then opened (probe_device v lib).trace else [] := by
  rcases probe_device_cases v lib with ⟨hpath, h⟩ | ⟨path, hpath, h1, h⟩ |
    ⟨path, hpath, h1, h2, h⟩ | ⟨path, hpath, h1, h2, h3, h⟩ |
    ⟨path, hpath, h1, h2, h3, h4, h⟩ | ⟨path, hpath, h1, h2, h3, h4, h⟩
  · rw [h]; simp [closed, opened, usage]
  · rw [h]; simp [closed, opened]
  · rw [h]; simp [closed, opened]
  · rw [h]; simp [closed, opened]
  · rw [h]; simp [closed, opened]
  · rw [h]
    obtain ⟨c1, c2⟩ := closed_scan v lib path (lib.open_ path)
    simp only [closed, opened] at c1 c2 ⊢
    simp [c1, c2, List.filterMap_append, List.filterMap_cons, h2]

/-- C5 (the code on the failing inputs): on the command line `-b /dev/sda`, with
`open` returning descriptor 3, a failure of `blkid_probe_set_device`, of the
initial `blkid_do_probe`, of the superblock `blkid_do_fullprobe` or of the
partition `blkid_do_fullprobe` makes `main` return 1 without any `close` call,
while the run in which nothing fails closes descriptor 3. -/
theorem descriptor_left_open_on_error_paths :
    ((main sample_heap set_device_fails [⟨'b', "/dev/sda"⟩]).status = 1 ∧
      opened (main sample_heap set_device_fails [⟨'b', "/dev/sda"⟩]).trace = [3] ∧
      closed (main sample_heap set_device_fails [⟨'b', "/dev/sda"⟩]).trace = []) ∧
    ((main sample_heap do_probe_fails [⟨'b', "/dev/sda"⟩]).status = 1 ∧
      opened (main sample_heap do_probe_fails [⟨'b', "/dev/sda"⟩]).trace = [3] ∧
      closed (main sample_heap do_probe_fails [⟨'b', "/dev/sda"⟩]).trace = []) ∧
    ((main sample_heap superblock_fullprobe_fails [⟨'b', "/dev/sda"⟩]).status = 1 ∧
      opened (main sample_heap superblock_fullprobe_fails [⟨'b', "/dev/sda"⟩]).trace = [3] ∧
      closed (main sample_heap superblock_fullprobe_fails [⟨'b', "/dev/sda"⟩]).trace = []) ∧
    ((main sample_heap partition_fullprobe_fails [⟨'b', "/dev/sda"⟩]).status = 1 ∧
      opened (main sample_heap partition_fullprobe_fails [⟨'b', "/dev/sda"⟩]).trace = [3] ∧
      closed (main sample_heap partition_fullprobe_fails [⟨'b', "/dev/sda"⟩]).trace = []) ∧
    ((main sample_heap sample_library [⟨'b', "/dev/sda"⟩]).status = 0 ∧
      opened (main sample_heap sample_library [⟨'b', "/dev/sda"⟩]).trace = [3] ∧
      closed (main sample_heap sample_library [⟨'b', "/dev/sda"⟩]).trace = [3]) := by
  decide

/-! ## Failing steps -/

/-- Events that are not failing steps in front of a trace do not change what
follows its first failing step. -/
theorem after_fatal_append (s t : List Event) (hs : ∀ e ∈ s, fatal e = false) :
    after_fatal (s ++ t) = after_fatal t := by
  induction s with
  | nil => rfl
  | cons e rest ih =>
    have he : fatal e = false := hs e (List.mem_cons_self e rest)
    have hrest : ∀ x ∈ rest, fatal x = false := fun x hx => hs x (List.mem_cons_of_mem e hx)
    simp [after_fatal, he, ih hrest]

/-- A print loop holds no failing step. -/
theorem after_fatal_print_props (lookup : String → Int × String) (tbl : CellArray)
    (t : List Event) : after_fatal (print_props lookup tbl ++ t) = after_fatal t := by
  apply after_fatal_append
  intro e he
  rcases mem_print_props lookup tbl e he with ⟨k, r, rfl⟩ | ⟨k, val, rfl⟩ <;> rfl

/-- The superblock filter block holds no failing step. -/
theorem after_fatal_superblock_filter (v : Vars) (lib : Library) (t : List Event) :
    after_fatal (superblock_filter v lib ++ t) = after_fatal t := by
  apply after_fatal_append
  intro e he
  rcases mem_superblock_filter v lib e he with rfl | rfl <;> rfl

/-- The partition filter block holds no failing step. -/
theorem after_fatal_partition_filter (v : Vars) (lib : Library) (t : List Event) :
    after_fatal (partition_filter v lib ++ t) = after_fatal t := by
  apply after_fatal_append
  intro e he
  rcases mem_partition_filter v lib e he with rfl | rfl <;> rfl

/-- None of the four blocks of the scan part holds a failing step. -/
theorem any_fatal_blocks (v : Vars) (lib : Library) (lookup : String → Int × String)
    (tbl : CellArray) :
    (print_props lookup tbl).any fatal = false ∧
    (superblock_filter v lib).any fatal = false ∧
    (partition_filter v lib).any fatal = false := by
  simp only [List.any_eq_false]
  refine ⟨?_, ?_, ?_⟩ <;> intro e he
  · rcases mem_print_props _ _ e he with ⟨k, r, rfl⟩ | ⟨k, val, rfl⟩ <;> simp [fatal]
  · rcases mem_superblock_filter _ _ e he with rfl | rfl <;> simp [fatal]
  · rcases mem_partition_filter _ _ e he with rfl | rfl <;> simp [fatal]

/-- The scan part: its status, and what follows its first failing step. -/
theorem scan_status (v : Vars) (lib : Library) (path : String) (fd : Int) :
    ((scan v lib path fd).status = 0 ↔
      (lib.enable_superblocks > -1 → 0 ≤ lib.superblock_fullprobe) ∧
      (lib.enable_partitions > -1 → 0 ≤ lib.partition_fullprobe)) ∧
    ((scan v lib path fd).status = 0 ∨ (scan v lib path fd).status = 1) ∧
    (∀ e ∈ after_fatal (scan v lib path fd).trace, quiet e = true) ∧
    ((scan v lib path fd).status = 1 → (scan v lib path fd).trace.any fatal = true) := by
  unfold scan superblock_stage partition_stage
  generalize superblock_props = sb_table
  generalize partition_props = pt_table
  by_cases h1 : lib.enable_superblocks > -1 <;> by_cases h2 : lib.superblock_fullprobe < 0 <;>
    by_cases h3 : lib.enable_partitions > -1 <;> by_cases h4 : lib.partition_fullprobe < 0 <;>
    simp only [h1, h2, h3, h4, if_true, if_false] <;>
    simp [after_fatal, fatal, quiet, after_fatal_print_props, after_fatal_superblock_filter,
      after_fatal_partition_filter, any_fatal_blocks, h1, h2, h3, h4] <;>
    omega

/-- Every line of `usage` is neither an external call nor a line of device output. -/
theorem usage_quiet : ∀ e ∈ usage, quiet e = true := by decide

/-- The probing part: its status, what follows its first failing step, and the
run without a device path. -/
theorem probe_device_status (v : Vars) (lib : Library) :
    ((probe_device v lib).status = 0 ↔
      ∃ path, v.block_device_path = some path ∧ lib.blkid_new_probe ≠ 0 ∧
        0 ≤ lib.open_ path ∧ 0 ≤ lib.blkid_probe_set_device ∧ 0 ≤ lib.blkid_do_probe ∧
        (lib.enable_superblocks > -1 → 0 ≤ lib.superblock_fullprobe) ∧
        (lib.enable_partitions > -1 → 0 ≤ lib.partition_fullprobe)) ∧
    ((probe_device v lib).status = 0 ∨ (probe_device v lib).status = 1) ∧
    (∀ e ∈ after_fatal (probe_device v lib).trace, quiet e = true) ∧
    ((probe_device v lib).status = 1 →
      v.block_device_path = none ∨ (probe_device v lib).trace.any fatal = true) ∧
    (v.block_device_path = none →
      calls (probe_device v lib).trace =
        [.blkid_init_debug (if v.debug = true then 0xFFFF else 0), .blkid_new_probe] ∧
      property_lines (probe_device v lib).trace = []) := by
  rcases probe_device_cases v lib with ⟨hpath, h⟩ | ⟨path, hpath, h1, h⟩ |
    ⟨path, hpath, h1, h2, h⟩ | ⟨path, hpath, h1, h2, h3, h⟩ |
    ⟨path, hpath, h1, h2, h3, h4, h⟩ | ⟨path, hpath, h1, h2, h3, h4, h⟩
  · rw [h]
    refine ⟨by simp [hpath], by simp, ?_, by simp [hpath], ?_⟩
    · intro e he
      by_cases hn : lib.blkid_new_probe = 0
      · simp [after_fatal, fatal, hn] at he
        rcases he with rfl | he
        · rfl
        · exact usage_quiet e he
      · simp [after_fatal, fatal, hn, usage] at he
    · intro _
      simp [calls, property_lines, property_line, usage]
  · rw [h]
    simp [hpath, h1, after_fatal, fatal, quiet]
  · rw [h]
    simp [hpath, h1, h2, after_fatal, fatal, quiet, not_le.mpr h2]
  · rw [h]
    simp [hpath, h1, h2, h3, after_fatal, fatal, quiet, not_lt.mpr h2, not_le.mpr h3]
  · rw [h]
    simp [hpath, h1, h2, h3, h4, after_fatal, fatal, quiet, not_lt.mpr h2, not_lt.mpr h3,
      not_le.mpr h4]
  · rw [h]
    obtain ⟨s1, s2, s3, s4⟩ := scan_status v lib path (lib.open_ path)
    simp only [hpath]
    refine ⟨?_, s2, ?_, ?_, by simp⟩
    · rw [s1]
      simp [h1, h2, h3, h4]
    · simpa [after_fatal, fatal, h1, not_lt.mpr h2, not_lt.mpr h3, not_lt.mpr h4] using s3
    · intro hs
      right
      simp [s4 hs]

/-- After a completed option loop `main` is the probing part on the locals the
loop left, and the device path is the argument of the first `-b`. -/
theorem main_of_completed_loop (h : Heap) (lib : Library) (argv : List Getopt) (v : Vars)
    (hloop : option_loop h Vars.init argv = .continue_ v) :
    main h lib argv = probe_device v lib ∧ v.block_device_path = first_block_device argv := by
  refine ⟨by simp [main, hloop], ?_⟩
  have := option_loop_path h argv Vars.init v hloop
  simpa [Vars.init] using this

/-- C7: when option parsing completes, `main` returns 0 if and only if a block
device path was given, the probe was created, `open` succeeded,
`blkid_probe_set_device` and the initial `blkid_do_probe` returned `>= 0`, and
`blkid_do_fullprobe` returned `>= 0` in each category whose enable call returned
`> -1`; otherwise it returns 1.  After the first failing step the trace holds no
external call and no line of device output (only messages on standard error and
lines of `usage`), a run that returns 1 with a device path holds a failing step,
and a run without a device path makes no call after `blkid_new_probe` and prints
no key/value line. -/
theorem failures_exit_with_status_one (h : Heap) (lib : Library) (argv : List Getopt)
    (v : Vars) (hloop : option_loop h Vars.init argv = .continue_ v) :
    ((main h lib argv).status = 0 ↔
      ∃ path, first_block_device argv = some path ∧ lib.blkid_new_probe ≠ 0 ∧
        0 ≤ lib.open_ path ∧ 0 ≤ lib.blkid_probe_set_device ∧ 0 ≤ lib.blkid_do_probe ∧
        (lib.enable_superblocks > -1 → 0 ≤ lib.superblock_fullprobe) ∧
        (lib.enable_partitions > -1 → 0 ≤ lib.partition_fullprobe)) ∧
    ((main h lib argv).status = 0 ∨ (main h lib argv).status = 1) ∧
    (∀ e ∈ after_fatal (main h lib argv).trace, quiet e = true) ∧
    ((main h lib argv).status = 1 →
      first_block_device argv = none ∨ (main h lib argv).trace.any fatal = true) ∧
    (first_block_device argv = none →
      calls (main h lib argv).trace =
        [.blkid_init_debug (if v.debug = true then 0xFFFF else 0), .blkid_new_probe] ∧
      property_lines (main h lib argv).trace = []) := by
  obtain ⟨hm, hp⟩ := main_of_completed_loop h lib argv v hloop
  rw [hm, ← hp]
  exact probe_device_status v lib

/-- C7, on the sample command line: the option loop completes, and with a
failing `blkid_probe_set_device` the run does not return 0. -/
theorem failures_exit_with_status_one_witness :
    option_loop sample_heap Vars.init sample_argv = .continue_ sample_vars ∧
    ((main sample_heap set_device_fails sample_argv).status = 0 ∨
      (main sample_heap set_device_fails sample_argv).status = 1) ∧
    ¬ (main sample_heap set_device_fails sample_argv).status = 0 ∧
    (∀ e ∈ after_fatal (main sample_heap set_device_fails sample_argv).trace, quiet e = true) :=
  ⟨option_loop_sample,
    (failures_exit_with_status_one sample_heap set_device_fails sample_argv sample_vars
      option_loop_sample).2.1,
    by decide,
    (failures_exit_with_status_one sample_heap set_device_fails sample_argv sample_vars
      option_loop_sample).2.2.1⟩

/-! ## Enabled categories -/

/-- Events that are neither enable calls nor probing calls in front of a trace do
not change its probe history. -/
theorem probe_history_append (s t : List Event) (sb pt : Option Nat)
    (hs : ∀ e ∈ s, ∀ a b u, probe_history a b (e :: u) = probe_history a b u) :
    probe_history sb pt (s ++ t) = probe_history sb pt t := by
  induction s with
  | nil => rfl
  | cons e rest ih =>
    rw [List.cons_append, hs e (List.mem_cons_self e rest)]
    exact ih fun x hx => hs x (List.mem_cons_of_mem e hx)

/-- A print loop does not change the probe history. -/
theorem probe_history_print_props (lookup : String → Int × String) (tbl : CellArray)
    (t : List Event) (sb pt : Option Nat) :
    probe_history sb pt (print_props lookup tbl ++ t) = probe_history sb pt t := by
  apply probe_history_append
  intro e he a b u
  rcases mem_print_props lookup tbl e he with ⟨k, r, rfl⟩ | ⟨k, val, rfl⟩ <;> rfl

/-- The superblock filter block does not change the probe history. -/
theorem probe_history_superblock_filter (v : Vars) (lib : Library) (t : List Event)
    (sb pt : Option Nat) :
    probe_history sb pt (superblock_filter v lib ++ t) = probe_history sb pt t := by
  apply probe_history_append
  intro e he a b u
  rcases mem_superblock_filter v lib e he with rfl | rfl <;> rfl

/-- The partition filter block does not change the probe history. -/
theorem probe_history_partition_filter (v : Vars) (lib : Library) (t : List Event)
    (sb pt : Option Nat) :
    probe_history sb pt (partition_filter v lib ++ t) = probe_history sb pt t := by
  apply probe_history_append
  intro e he a b u
  rcases mem_partition_filter v lib e he with rfl | rfl <;> rfl

/-- The probe history of the scan part, entered with partitions in state `pt`
and followed by the events `t`. -/
theorem probe_history_scan (v : Vars) (lib : Library) (path : String) (fd : Int)
    (sb pt : Option Nat) :
    probe_history sb pt (scan v lib path fd).trace =
      (if lib.enable_superblocks > -1 then [(LibCall.blkid_do_fullprobe, some 1, pt)] else []) ++
      (if (lib.enable_superblocks > -1 → 0 ≤ lib.superblock_fullprobe) ∧
          lib.enable_partitions > -1 then
        [(LibCall.blkid_do_fullprobe, some 0, some 1)] else []) := by
  unfold scan superblock_stage partition_stage
  generalize superblock_props = sb_table
  generalize partition_props = pt_table
  by_cases h1 : lib.enable_superblocks > -1 <;> by_cases h2 : lib.superblock_fullprobe < 0 <;>
    by_cases h3 : lib.enable_partitions > -1 <;> by_cases h4 : lib.partition_fullprobe < 0 <;>
    simp only [h1, h2, h3, h4, if_true, if_false] <;>
    simp [probe_history, probe_history_print_props, probe_history_superblock_filter,
      probe_history_partition_filter, h1, h2, h3, h4] <;>
    rw [if_pos (not_lt.mp h2)]

/-- The probe history of a run of the probing part. -/
theorem probe_history_probe_device (v : Vars) (lib : Library) :
    (probe_history none none (probe_device v lib).trace).Sublist
      [(LibCall.blkid_do_probe, some 0, some 0), (LibCall.blkid_do_fullprobe, some 1, some 0),
       (LibCall.blkid_do_fullprobe, some 0, some 1)] ∧
    ((probe_device v lib).status = 0 →
      probe_history none none (probe_device v lib).trace =
        (LibCall.blkid_do_probe, some 0, some 0) ::
          ((if lib.enable_superblocks > -1 then
              [(LibCall.blkid_do_fullprobe, some 1, some 0)] else []) ++
           (if lib.enable_partitions > -1 then
              [(LibCall.blkid_do_fullprobe, some 0, some 1)] else []))) := by
  rcases probe_device_cases v lib with ⟨hpath, h⟩ | ⟨path, hpath, h1, h⟩ |
    ⟨path, hpath, h1, h2, h⟩ | ⟨path, hpath, h1, h2, h3, h⟩ |
    ⟨path, hpath, h1, h2, h3, h4, h⟩ | ⟨path, hpath, h1, h2, h3, h4, h⟩
  · rw [h]; simp [probe_history, usage]
  · rw [h]; simp [probe_history]
  · rw [h]; simp [probe_history]
  · rw [h]; simp [probe_history]
  · rw [h]; simp [probe_history]
  · rw [h]
    obtain ⟨s1, -, -, -⟩ := scan_status v lib path (lib.open_ path)
    simp only [List.cons_append, List.nil_append, probe_history, List.append_eq,
      probe_history_scan]
    constructor
    · split_ifs <;> simp
    · intro h0
      obtain ⟨hs, hp⟩ := s1.mp h0
      by_cases e1 : lib.enable_superblocks > -1 <;> by_cases e2 : lib.enable_partitions > -1 <;>
        simp [e1, e2, hs, hp]

/-- C8: the probing calls of every run, each with the enabled state of the two
categories at the call (the argument of the most recent enable call), form a
sublist of: the initial `blkid_do_probe` with both categories disabled, a
`blkid_do_fullprobe` with superblocks enabled and partitions disabled, a
`blkid_do_fullprobe` with superblocks disabled again and partitions enabled, in
this order.  So no probing call is issued with both categories enabled, and the
superblock full probe comes before the partition full probe.  In a run that
completes option parsing and returns 0 the probing calls are exactly the
initial probe, the superblock full probe if its enable call returned `> -1`, and
the partition full probe if its enable call returned `> -1`. -/
theorem full_probes_run_one_category_at_a_time (h : Heap) (lib : Library)
    (argv : List Getopt) :
    (probe_history none none (main h lib argv).trace).Sublist
      [(LibCall.blkid_do_probe, some 0, some 0), (LibCall.blkid_do_fullprobe, some 1, some 0),
       (LibCall.blkid_do_fullprobe, some 0, some 1)] ∧
    (∀ c sb pt, (c, sb, pt) ∈ probe_history none none (main h lib argv).trace →
      ¬ (sb = some 1 ∧ pt = some 1) ∧
      (c = LibCall.blkid_do_probe → sb = some 0 ∧ pt = some 0) ∧
      (c = LibCall.blkid_do_fullprobe →
        (sb = some 1 ∧ pt = some 0) ∨ (sb = some 0 ∧ pt = some 1))) ∧
    (∀ v, option_loop h Vars.init argv = .continue_ v → (main h lib argv).status = 0 →
      probe_history none none (main h lib argv).trace =
        (LibCall.blkid_do_probe, some 0, some 0) ::
          ((if lib.enable_superblocks > -1 then
              [(LibCall.blkid_do_fullprobe, some 1, some 0)] else []) ++
           (if lib.enable_partitions > -1 then
              [(LibCall.blkid_do_fullprobe, some 0, some 1)] else []))) := by
  have hsub : (probe_history none none (main h lib argv).trace).Sublist
      [(LibCall.blkid_do_probe, some 0, some 0), (LibCall.blkid_do_fullprobe, some 1, some 0),
       (LibCall.blkid_do_fullprobe, some 0, some 1)] := by
    unfold main
    cases hloop : option_loop h Vars.init argv with
    | return_ events status =>
      rcases option_loop_return h argv Vars.init events status hloop with
        ⟨rfl, _⟩ | ⟨rfl, _⟩ | ⟨rfl, _⟩ <;> simp [probe_history, usage]
    | continue_ v => exact (probe_history_probe_device v lib).1
  refine ⟨hsub, ?_, ?_⟩
  · intro c sb pt hmem
    have := hsub.subset hmem
    simp only [List.mem_cons, Prod.mk.injEq, List.mem_singleton, List.not_mem_nil,
      or_false] at this
    rcases this with ⟨rfl, rfl, rfl⟩ | ⟨rfl, rfl, rfl⟩ | ⟨rfl, rfl, rfl⟩ <;> simp
  · intro v hloop h0
    obtain ⟨hm, -⟩ := main_of_completed_loop h lib argv v hloop
    rw [hm] at h0 ⊢
    exact (probe_history_probe_device v lib).2 h0

/-- C8, on the sample run: option parsing completes, the run returns 0, and its
probing calls are the initial probe and the two full probes, each with one
category enabled. -/
theorem full_probes_run_one_category_at_a_time_witness :
    probe_history none none (main sample_heap sample_library sample_argv).trace =
      (LibCall.blkid_do_probe, some 0, some 0) ::
        ((if sample_library.enable_superblocks > -1 then
            [(LibCall.blkid_do_fullprobe, some 1, some 0)] else []) ++
         (if sample_library.enable_partitions > -1 then
            [(LibCall.blkid_do_fullprobe, some 0, some 1)] else [])) :=
  (full_probes_run_one_category_at_a_time sample_heap sample_library sample_argv).2.2
    sample_vars option_loop_sample (by decide)

/-! ## The device path -/

/-- The scan part never calls `open`. -/
theorem opened_paths_scan (v : Vars) (lib : Library) (path : String) (fd : Int) :
    opened_paths (scan v lib path fd).trace = [] := by
  have b1 : ∀ lookup tbl, opened_paths (print_props lookup tbl) = [] := fun lookup tbl =>
    filterMap_print_props _ lookup tbl (fun _ _ => rfl) (fun _ _ => rfl)
  have b2 : opened_paths (superblock_filter v lib) = [] := by
    unfold superblock_filter opened_paths
    split_ifs <;> simp
  have b3 : opened_paths (partition_filter v lib) = [] := by
    unfold partition_filter opened_paths
    split_ifs <;> simp
  simp only [opened_paths] at b1 b2 b3 ⊢
  unfold scan superblock_stage partition_stage
  generalize superblock_props = sb_table
  generalize partition_props = pt_table
  by_cases h1 : lib.enable_superblocks > -1 <;> by_cases h2 : lib.superblock_fullprobe < 0 <;>
    by_cases h3 : lib.enable_partitions > -1 <;> by_cases h4 : lib.partition_fullprobe < 0 <;>
    simp only [h1, h2, h3, h4, if_true, if_false] <;>
    simp [b1, b2, b3]

/-- C9: after a completed option loop the device path is the argument of the
first `-b` on the command line, whatever follows it; a `-b` met when the path is
already set leaves every local unchanged; and the only path `main` ever passes to
`open` is the argument of the first `-b`. -/
theorem first_block_device_option_wins (h : Heap) (lib : Library) (argv : List Getopt) :
    (∀ v, option_loop h Vars.init argv = .continue_ v →
      v.block_device_path = first_block_device argv) ∧
    (∀ (w : Vars) (p x : String), w.block_device_path = some p →
      option_case h w ⟨'b', x⟩ = .continue_ w) ∧
    (∀ (before after : List Getopt) (x : String), (∀ g ∈ before, g.opt ≠ 'b') →
      first_block_device (before ++ ⟨'b', x⟩ :: after) = some x) ∧
    (∀ path ∈ opened_paths (main h lib argv).trace, first_block_device argv = some path) := by
  refine ⟨fun v hloop => (main_of_completed_loop h lib argv v hloop).2, ?_, ?_, ?_⟩
  · intro w p x hw
    have : option_case h w ⟨'b', x⟩ =
        (match w.block_device_path with
          | none => Step.continue_ { w with block_device_path := some x }
          | some _ => Step.continue_ w) := rfl
    rw [this, hw]
  · intro before after x hb
    induction before with
    | nil => simp [first_block_device]
    | cons g rest ih =>
      have hg : g.opt ≠ 'b' := hb g (List.mem_cons_self g rest)
      have hrest := ih fun g' hg' => hb g' (List.mem_cons_of_mem g hg')
      simpa [first_block_device, List.find?_cons, hg] using hrest
  · intro path hmem
    unfold main at hmem
    cases hloop : option_loop h Vars.init argv with
    | return_ events status =>
      rw [hloop] at hmem
      rcases option_loop_return h argv Vars.init events status hloop with
        ⟨rfl, _⟩ | ⟨rfl, _⟩ | ⟨rfl, _⟩ <;> simp [opened_paths, usage] at hmem
    | continue_ v =>
      rw [hloop] at hmem
      obtain ⟨-, hp⟩ := main_of_completed_loop h lib argv v hloop
      rw [← hp]
      simp only at hmem
      rcases probe_device_cases v lib with ⟨hpath, hc⟩ | ⟨p, hpath, _, hc⟩ |
        ⟨p, hpath, _, _, hc⟩ | ⟨p, hpath, _, _, _, hc⟩ |
        ⟨p, hpath, _, _, _, _, hc⟩ | ⟨p, hpath, _, _, _, _, hc⟩
      · rw [hc] at hmem; simp [opened_paths, usage] at hmem
      · rw [hc] at hmem; simp [opened_paths] at hmem
      · rw [hc] at hmem; simp [opened_paths] at hmem; rw [hpath, hmem]
      · rw [hc] at hmem; simp [opened_paths] at hmem; rw [hpath, hmem]
      · rw [hc] at hmem; simp [opened_paths] at hmem; rw [hpath, hmem]
      · rw [hc] at hmem
        have hs := opened_paths_scan v lib p (lib.open_ p)
        simp only [opened_paths] at hs hmem
        simp [hs] at hmem
        rw [hpath, hmem]

/-- C9, on the sample command line `-b /dev/sda .. -b /dev/sdb`: the path after
the option loop is the argument of the first `-b`, and the second `-b` leaves
the locals unchanged. -/
theorem first_block_device_option_wins_witness :
    sample_vars.block_device_path = first_block_device sample_argv ∧
    first_block_device sample_argv = some "/dev/sda" ∧
    option_case sample_heap sample_vars ⟨'b', "/dev/sdb"⟩ = .continue_ sample_vars :=
  ⟨(first_block_device_option_wins sample_heap sample_library sample_argv).1 sample_vars
      option_loop_sample,
    by decide,
    (first_block_device_option_wins sample_heap sample_library sample_argv).2.1 sample_vars
      "/dev/sda" "/dev/sdb" rfl⟩

/-! ## Filter failures -/

/-- The filter blocks with the outcome of the filter call erased, their output
and their calls: none depends on the result of the filter call. -/
theorem filter_blocks_erased (v : Vars) (lib : Library) :
    (superblock_filter v lib).filterMap erase_filter_outcome =
      (if v.superblock_filter_list_length ≠ 0 then
        [.call (.blkid_probe_filter_superblocks_type .BLKID_FLTR_NOTIN
          v.superblock_filter_list) none] else []) ∧
    (partition_filter v lib).filterMap erase_filter_outcome =
      (if v.partition_filter_list_length ≠ 0 then
        [.call (.blkid_probe_filter_partitions_type .BLKID_FLTR_NOTIN
          v.partition_filter_list) none] else []) ∧
    stdout_of (superblock_filter v lib) = [] ∧
    stdout_of (partition_filter v lib) = [] ∧
    calls (superblock_filter v lib) =
      (if v.superblock_filter_list_length ≠ 0 then
        [.blkid_probe_filter_superblocks_type .BLKID_FLTR_NOTIN v.superblock_filter_list]
       else []) ∧
    calls (partition_filter v lib) =
      (if v.partition_filter_list_length ≠ 0 then
        [.blkid_probe_filter_partitions_type .BLKID_FLTR_NOTIN v.partition_filter_list]
       else []) := by
  unfold superblock_filter partition_filter stdout_of calls
  refine ⟨?_, ?_, ?_, ?_, ?_, ?_⟩ <;> split_ifs <;> simp [erase_filter_outcome]

/-- The scan part under two libraries that differ only in the results of the two
filter calls. -/
theorem scan_filter_results (v : Vars) (lib : Library) (path : String) (fd : Int)
    (r q : Int) :
    (scan v { lib with filter_superblocks_type := r, filter_partitions_type := q }
        path fd).status = (scan v lib path fd).status ∧
    (scan v { lib with filter_superblocks_type := r, filter_partitions_type := q }
        path fd).trace.filterMap erase_filter_outcome =
      (scan v lib path fd).trace.filterMap erase_filter_outcome ∧
    stdout_of (scan v { lib with filter_superblocks_type := r, filter_partitions_type := q }
        path fd).trace = stdout_of (scan v lib path fd).trace ∧
    calls (scan v { lib with filter_superblocks_type := r, filter_partitions_type := q }
        path fd).trace = calls (scan v lib path fd).trace := by
  obtain ⟨a1, a2, a3, a4, a5, a6⟩ := filter_blocks_erased v lib
  obtain ⟨b1, b2, b3, b4, b5, b6⟩ := filter_blocks_erased v
    { lib with filter_superblocks_type := r, filter_partitions_type := q }
  simp only [stdout_of, calls] at a3 a4 a5 a6 b3 b4 b5 b6 ⊢
  unfold scan superblock_stage partition_stage
  generalize superblock_props = sb_table
  generalize partition_props = pt_table
  by_cases h1 : lib.enable_superblocks > -1 <;> by_cases h2 : lib.superblock_fullprobe < 0 <;>
    by_cases h3 : lib.enable_partitions > -1 <;> by_cases h4 : lib.partition_fullprobe < 0 <;>
    simp only [h1, h2, h3, h4, if_true, if_false] <;>
    simp [a1, a2, a3, a4, a5, a6, b1, b2, b3, b4, b5, b6, List.filterMap_cons,
      List.filterMap_append, erase_filter_outcome]

/-- The probing part under two libraries that differ only in the results of the
two filter calls. -/
theorem probe_device_filter_results (v : Vars) (lib : Library) (r q : Int) :
    (probe_device v { lib with filter_superblocks_type := r, filter_partitions_type := q }).status =
      (probe_device v lib).status ∧
    (probe_device v { lib with filter_superblocks_type := r, filter_partitions_type := q }
        ).trace.filterMap erase_filter_outcome =
      (probe_device v lib).trace.filterMap erase_filter_outcome ∧
    stdout_of (probe_device v
        { lib with filter_superblocks_type := r, filter_partitions_type := q }).trace =
      stdout_of (probe_device v lib).trace ∧
    calls (probe_device v
        { lib with filter_superblocks_type := r, filter_partitions_type := q }).trace =
      calls (probe_device v lib).trace := by
  rcases probe_device_cases v lib with ⟨hpath, h⟩ | ⟨path, hpath, h1, h⟩ |
    ⟨path, hpath, h1, h2, h⟩ | ⟨path, hpath, h1, h2, h3, h⟩ |
    ⟨path, hpath, h1, h2, h3, h4, h⟩ | ⟨path, hpath, h1, h2, h3, h4, h⟩
  · rw [h]; simp [probe_device, hpath]
  · rw [h]; simp [probe_device, hpath, h1]
  · rw [h]; simp [probe_device, hpath, h1, h2]
  · rw [h]; simp [probe_device, hpath, h1, not_lt.mpr h2, h3]
  · rw [h]; simp [probe_device, hpath, h1, not_lt.mpr h2, not_lt.mpr h3, h4]
  · rw [h]
    obtain ⟨s1, s2, s3, s4⟩ := scan_filter_results v lib path (lib.open_ path) r q
    simp only [stdout_of, calls] at s3 s4 ⊢
    simp [probe_device, hpath, h1, not_lt.mpr h2, not_lt.mpr h3, not_lt.mpr h4, s1, s2, s3, s4,
      List.filterMap_append, List.filter_append, List.filterMap_cons, erase_filter_outcome]

/-- The warnings of a run of the scan part: each is printed exactly when the
filter call of its category is made and returns `< 0`. -/
theorem warnings_scan (v : Vars) (lib : Library) (path : String) (fd : Int) :
    (Event.fprintf_stderr "warning: failed to filter superblock type(s)\n" [] ∈
        (scan v lib path fd).trace ↔
      lib.filter_superblocks_type < 0 ∧ superblock_filters (scan v lib path fd).trace ≠ []) ∧
    (Event.fprintf_stderr "warning: failed to filter partition type(s)\n" [] ∈
        (scan v lib path fd).trace ↔
      lib.filter_partitions_type < 0 ∧ partition_filters (scan v lib path fd).trace ≠ []) := by
  obtain ⟨f1, f2, -, -⟩ := filters_scan v lib path fd
  rw [f1, f2]
  have m1 : ∀ lookup tbl (fmt : String) (args : List PrintfArg),
      Event.fprintf_stderr fmt args ∉ print_props lookup tbl := by
    intro lookup tbl fmt args hmem
    rcases mem_print_props lookup tbl _ hmem with ⟨k, r, hk⟩ | ⟨k, val, hk⟩ <;> cases hk
  have m2 : Event.fprintf_stderr "warning: failed to filter superblock type(s)\n" [] ∈
      superblock_filter v lib ↔
      lib.filter_superblocks_type < 0 ∧ v.superblock_filter_list_length ≠ 0 := by
    unfold superblock_filter
    split_ifs <;> simp [*]
  have m3 : Event.fprintf_stderr "warning: failed to filter partition type(s)\n" [] ∈
      partition_filter v lib ↔
      lib.filter_partitions_type < 0 ∧ v.partition_filter_list_length ≠ 0 := by
    unfold partition_filter
    split_ifs <;> simp [*]
  have m4 : Event.fprintf_stderr "warning: failed to filter superblock type(s)\n" [] ∉
      partition_filter v lib := by
    intro hmem
    rcases mem_partition_filter v lib _ hmem with hk | hk
    · cases hk
    · revert hk; decide
  have m5 : Event.fprintf_stderr "warning: failed to filter partition type(s)\n" [] ∉
      superblock_filter v lib := by
    intro hmem
    rcases mem_superblock_filter v lib _ hmem with hk | hk
    · cases hk
    · revert hk; decide
  unfold scan superblock_stage partition_stage
  generalize superblock_props = sb_table
  generalize partition_props = pt_table
  by_cases h1 : lib.enable_superblocks > -1 <;> by_cases h2 : lib.superblock_fullprobe < 0 <;>
    by_cases h3 : lib.enable_partitions > -1 <;> by_cases h4 : lib.partition_fullprobe < 0 <;>
    simp only [h1, h2, h3, h4, if_true, if_false] <;>
    simp [m1, m2, m3, m4, m5, h1, h2, h3, h4] <;>
    omega

/-- The warnings of a run of the probing part: each is printed exactly when the
filter call of its category is made and returns `< 0`. -/
theorem warnings_probe_device (v : Vars) (lib : Library) :
    (Event.fprintf_stderr "warning: failed to filter superblock type(s)\n" [] ∈
        (probe_device v lib).trace ↔
      lib.filter_superblocks_type < 0 ∧ superblock_filters (probe_device v lib).trace ≠ []) ∧
    (Event.fprintf_stderr "warning: failed to filter partition type(s)\n" [] ∈
        (probe_device v lib).trace ↔
      lib.filter_partitions_type < 0 ∧ partition_filters (probe_device v lib).trace ≠ []) := by
  rcases probe_device_cases v lib with ⟨hpath, h⟩ | ⟨path, hpath, h1, h⟩ |
    ⟨path, hpath, h1, h2, h⟩ | ⟨path, hpath, h1, h2, h3, h⟩ |
    ⟨path, hpath, h1, h2, h3, h4, h⟩ | ⟨path, hpath, h1, h2, h3, h4, h⟩
  · rw [h]; simp [superblock_filters, partition_filters, usage]
  · rw [h]; simp [superblock_filters, partition_filters]
  · rw [h]; simp [superblock_filters, partition_filters]
  · rw [h]; simp [superblock_filters, partition_filters]
  · rw [h]; simp [superblock_filters, partition_filters]
  · rw [h]
    obtain ⟨w1, w2⟩ := warnings_scan v lib path (lib.open_ path)
    simp only [superblock_filters, partition_filters] at w1 w2 ⊢
    simp [w1, w2, List.filterMap_append, List.filterMap_cons]

/-- Events that do not satisfy `p` in front of a trace do not change what follows
the first event that satisfies it. -/
theorem events_after_append (p : Event → Bool) (s t : List Event)
    (hs : ∀ e ∈ s, p e = false) : events_after p (s ++ t) = events_after p t := by
  induction s with
  | nil => rfl
  | cons e rest ih =>
    have he : p e = false := hs e (List.mem_cons_self e rest)
    have hrest : ∀ x ∈ rest, p x = false := fun x hx => hs x (List.mem_cons_of_mem e hx)
    simp [events_after, he, ih hrest]

/-- A print loop holds no filter call. -/
theorem events_after_print_props (lookup : String → Int × String) (tbl : CellArray)
    (t : List Event) :
    events_after is_superblock_filter_call (print_props lookup tbl ++ t) =
      events_after is_superblock_filter_call t ∧
    events_after is_partition_filter_call (print_props lookup tbl ++ t) =
      events_after is_partition_filter_call t := by
  constructor <;> apply events_after_append <;> intro e he <;>
    rcases mem_print_props lookup tbl e he with ⟨k, r, rfl⟩ | ⟨k, val, rfl⟩ <;> rfl

/-- The superblock filter block holds no partition filter call. -/
theorem events_after_superblock_filter (v : Vars) (lib : Library) (t : List Event) :
    events_after is_partition_filter_call (superblock_filter v lib ++ t) =
      events_after is_partition_filter_call t := by
  apply events_after_append
  intro e he
  rcases mem_superblock_filter v lib e he with rfl | rfl <;> rfl

/-- What follows the filter call of each category in the scan part: when the
call is made, the continuation of its stage comes next. -/
theorem scan_after_filter (v : Vars) (lib : Library) (path : String) (fd : Int) :
    (superblock_filters (scan v lib path fd).trace ≠ [] →
      continuation "warning: failed to filter superblock type(s)\n"
          lib.filter_superblocks_type lib.superblock_fullprobe lib.superblock_lookup
          superblock_props <+:
        events_after is_superblock_filter_call (scan v lib path fd).trace) ∧
    (partition_filters (scan v lib path fd).trace ≠ [] →
      continuation "warning: failed to filter partition type(s)\n"
          lib.filter_partitions_type lib.partition_fullprobe lib.partition_lookup
          partition_props <+:
        events_after is_partition_filter_call (scan v lib path fd).trace) := by
  obtain ⟨f1, f2, -, -⟩ := filters_scan v lib path fd
  rw [f1, f2]
  unfold scan superblock_stage partition_stage superblock_filter partition_filter continuation
  generalize superblock_props = sb_table
  generalize partition_props = pt_table
  constructor
  · intro hcall
    have hc : lib.enable_superblocks > -1 ∧ v.superblock_filter_list_length ≠ 0 := by
      by_contra hn
      simp [hn] at hcall
    obtain ⟨h1, hl⟩ := hc
    by_cases h2 : lib.superblock_fullprobe < 0 <;>
      by_cases h3 : lib.enable_partitions > -1 <;>
      by_cases h4 : lib.partition_fullprobe < 0 <;>
      simp only [h1, hl, h2, h3, h4, if_true, if_false, ne_eq, not_false_eq_true] <;>
      simp [events_after, is_superblock_filter_call, List.append_assoc]
  · intro hcall
    have hc : (lib.enable_superblocks > -1 → 0 ≤ lib.superblock_fullprobe) ∧
        lib.enable_partitions > -1 ∧ v.partition_filter_list_length ≠ 0 := by
      by_contra hn
      simp [hn] at hcall
    obtain ⟨hsb, h3, hl⟩ := hc
    have e1 := fun t => (events_after_print_props lib.superblock_lookup sb_table t).2
    by_cases h1 : lib.enable_superblocks > -1 <;>
      by_cases h2 : lib.superblock_fullprobe < 0 <;>
      by_cases h4 : lib.partition_fullprobe < 0 <;>
      by_cases hs : v.superblock_filter_list_length = 0 <;>
      by_cases hr : lib.filter_superblocks_type < 0 <;>
      simp only [h1, hl, h2, h3, h4, hs, hr, if_true, if_false, ne_eq, not_false_eq_true,
        not_true_eq_false] <;>
      first
      | (exfalso; have := hsb h1; omega)
      | simp [events_after, is_partition_filter_call, List.append_assoc, e1]

/-- What follows the filter call of each category in a run of the probing part:
when the call is made, the continuation of its stage comes next. -/
theorem probe_device_after_filter (v : Vars) (lib : Library) :
    (superblock_filters (probe_device v lib).trace ≠ [] →
      continuation "warning: failed to filter superblock type(s)\n"
          lib.filter_superblocks_type lib.superblock_fullprobe lib.superblock_lookup
          superblock_props <+:
        events_after is_superblock_filter_call (probe_device v lib).trace) ∧
    (partition_filters (probe_device v lib).trace ≠ [] →
      continuation "warning: failed to filter partition type(s)\n"
          lib.filter_partitions_type lib.partition_fullprobe lib.partition_lookup
          partition_props <+:
        events_after is_partition_filter_call (probe_device v lib).trace) := by
  rcases probe_device_cases v lib with ⟨hpath, h⟩ | ⟨path, hpath, h1, h⟩ |
    ⟨path, hpath, h1, h2, h⟩ | ⟨path, hpath, h1, h2, h3, h⟩ |
    ⟨path, hpath, h1, h2, h3, h4, h⟩ | ⟨path, hpath, h1, h2, h3, h4, h⟩
  · rw [h]; simp [superblock_filters, partition_filters, usage]
  · rw [h]; simp [superblock_filters, partition_filters]
  · rw [h]; simp [superblock_filters, partition_filters]
  · rw [h]; simp [superblock_filters, partition_filters]
  · rw [h]; simp [superblock_filters, partition_filters]
  · rw [h]
    obtain ⟨a1, a2⟩ := scan_after_filter v lib path (lib.open_ path)
    simp only [superblock_filters, partition_filters] at a1 a2 ⊢
    simp only [List.cons_append, List.nil_append, List.filterMap_cons, List.filterMap_nil,
      events_after, is_superblock_filter_call, is_partition_filter_call]
    exact ⟨a1, a2⟩

/-- Once the stage of a category is reached with a non-empty filter list, the
filter call of the category is made. -/
theorem filter_call_is_made (h : Heap) (lib : Library) (argv : List Getopt) :
    (superblock_stage_reached (main h lib argv).trace = true → option_args 's' argv ≠ [] →
      superblock_filters (main h lib argv).trace ≠ []) ∧
    (partition_stage_reached (main h lib argv).trace = true → option_args 'p' argv ≠ [] →
      partition_filters (main h lib argv).trace ≠ []) := by
  unfold main
  cases hloop : option_loop h Vars.init argv with
  | return_ events status =>
    rcases option_loop_return h argv Vars.init events status hloop with
      ⟨rfl, _⟩ | ⟨rfl, _⟩ | ⟨rfl, _⟩ <;>
    simp [superblock_stage_reached, partition_stage_reached, usage]
  | continue_ v =>
    obtain ⟨-, h2, -, h4⟩ :=
      option_loop_collects h argv Vars.init v [] [] rfl rfl rfl rfl hloop
    simp only [List.nil_append] at h2 h4
    obtain ⟨-, -, -, -, p5, p6⟩ := filters_probe_device v lib
    constructor
    · intro hr hne
      have hl : v.superblock_filter_list_length ≠ 0 := by
        rw [h2]; exact fun h0 => hne (List.length_eq_zero.mp h0)
      show superblock_filters (probe_device v lib).trace ≠ []
      rw [p5 hr, if_pos hl]
      exact List.cons_ne_nil _ _
    · intro hr hne
      have hl : v.partition_filter_list_length ≠ 0 := by
        rw [h4]; exact fun h0 => hne (List.length_eq_zero.mp h0)
      show partition_filters (probe_device v lib).trace ≠ []
      rw [p6 hr, if_pos hl]
      exact List.cons_ne_nil _ _

/-- The stage of a category is reached whenever the option loop completes, the
setup steps succeed and the enable call of the category returns `> -1` (for
partitions: and the superblock stage did not make `main` return). -/
theorem stage_is_reached (h : Heap) (lib : Library) (argv : List Getopt) (v : Vars)
    (path : String) (hloop : option_loop h Vars.init argv = .continue_ v)
    (hpath : first_block_device argv = some path) (h1 : lib.blkid_new_probe ≠ 0)
    (h2 : 0 ≤ lib.open_ path) (h3 : 0 ≤ lib.blkid_probe_set_device)
    (h4 : 0 ≤ lib.blkid_do_probe) :
    (lib.enable_superblocks > -1 → superblock_stage_reached (main h lib argv).trace = true) ∧
    ((lib.enable_superblocks > -1 → 0 ≤ lib.superblock_fullprobe) →
      lib.enable_partitions > -1 → partition_stage_reached (main h lib argv).trace = true) := by
  obtain ⟨hm, hp⟩ := main_of_completed_loop h lib argv v hloop
  rw [hm]
  rw [← hp] at hpath
  obtain ⟨-, -, f3, f4⟩ := filters_scan v lib path (lib.open_ path)
  have ht : (probe_device v lib).trace =
      [ .call (.blkid_init_debug (if v.debug = true then 0xFFFF else 0)) none,
        .call .blkid_new_probe (some lib.blkid_new_probe),
        .call (.open_ path) (some (lib.open_ path)),
        .call (.blkid_probe_set_device (lib.open_ path)) (some lib.blkid_probe_set_device),
        .call (.blkid_probe_enable_superblocks 0) none,
        .call (.blkid_probe_enable_partitions 0) none,
        .call .blkid_do_probe (some lib.blkid_do_probe) ] ++
      (scan v lib path (lib.open_ path)).trace := by
    simp [probe_device, hpath, h1, not_lt.mpr h2, not_lt.mpr h3, not_lt.mpr h4]
  rw [ht]
  simp only [superblock_stage_reached, partition_stage_reached] at f3 f4 ⊢
  simp only [List.any_append, f3, f4]
  constructor
  · intro he; simp [he]
  · intro hs he
    simp [he]
    by_cases hx : lib.enable_superblocks > -1
    · exact Or.inr (hs hx)
    · exact Or.inl (by omega)

/-- C10: a failed filter call is not fatal.  The result of a filter call changes
neither the exit status, nor standard output, nor the sequence of external
calls: a run and the run with any other results `r`, `q` of the two filter calls
(and the same results of every other call) agree on the status, on what they
print, on the calls they make, and on the whole trace once the result of the
filter calls and the warning lines are erased.  The warning of a category is
printed exactly when the filter call of that category is made and returns `< 0`.
Whenever the filter call of a category is made, whatever it returns, what
follows it in the trace begins with: the warning if the call returned `< 0`, then
the `blkid_do_fullprobe` call of that category, then, unless that probe returned
`< 0`, the print loop of the category (its lookups and the lines of the keys
whose lookup succeeds).  The filter call of a category is made whenever its
stage is reached (its enable call returned `> -1`) with a non-empty filter
list; and the stage is reached whenever option parsing completes, the setup
steps succeed and the enable call returns `> -1` (for partitions: and the
superblock full probe, if it ran, returned `>= 0`). -/
theorem filter_failure_is_not_fatal (h : Heap) (lib : Library) (argv : List Getopt)
    (r q : Int) :
    (main h { lib with filter_superblocks_type := r, filter_partitions_type := q } argv).status =
      (main h lib argv).status ∧
    (main h { lib with filter_superblocks_type := r, filter_partitions_type := q } argv
        ).trace.filterMap erase_filter_outcome =
      (main h lib argv).trace.filterMap erase_filter_outcome ∧
    stdout_of (main h
        { lib with filter_superblocks_type := r, filter_partitions_type := q } argv).trace =
      stdout_of (main h lib argv).trace ∧
    calls (main h
        { lib with filter_superblocks_type := r, filter_partitions_type := q } argv).trace =
      calls (main h lib argv).trace ∧
    (Event.fprintf_stderr "warning: failed to filter superblock type(s)\n" [] ∈
        (main h lib argv).trace ↔
      lib.filter_superblocks_type < 0 ∧ superblock_filters (main h lib argv).trace ≠ []) ∧
    (Event.fprintf_stderr "warning: failed to filter partition type(s)\n" [] ∈
        (main h lib argv).trace ↔
      lib.filter_partitions_type < 0 ∧ partition_filters (main h lib argv).trace ≠ []) ∧
    (superblock_filters (main h lib argv).trace ≠ [] →
      (if lib.filter_superblocks_type < 0 then
          [Event.fprintf_stderr "warning: failed to filter superblock type(s)\n" []]
        else []) ++
        Event.call .blkid_do_fullprobe (some lib.superblock_fullprobe) ::
          (if lib.superblock_fullprobe < 0 then []
           else print_props lib.superblock_lookup superblock_props) <+:
        events_after is_superblock_filter_call (main h lib argv).trace) ∧
    (partition_filters (main h lib argv).trace ≠ [] →
      (if lib.filter_partitions_type < 0 then
          [Event.fprintf_stderr "warning: failed to filter partition type(s)\n" []]
        else []) ++
        Event.call .blkid_do_fullprobe (some lib.partition_fullprobe) ::
          (if lib.partition_fullprobe < 0 then []
           else print_props lib.partition_lookup partition_props) <+:
        events_after is_partition_filter_call (main h lib argv).trace) ∧
    (superblock_stage_reached (main h lib argv).trace = true → option_args 's' argv ≠ [] →
      superblock_filters (main h lib argv).trace ≠ []) ∧
    (partition_stage_reached (main h lib argv).trace = true → option_args 'p' argv ≠ [] →
      partition_filters (main h lib argv).trace ≠ []) ∧
    (∀ (v : Vars) (path : String), option_loop h Vars.init argv = .continue_ v →
      first_block_device argv = some path → lib.blkid_new_probe ≠ 0 → 0 ≤ lib.open_ path →
      0 ≤ lib.blkid_probe_set_device → 0 ≤ lib.blkid_do_probe →
      (lib.enable_superblocks > -1 →
        superblock_stage_reached (main h lib argv).trace = true) ∧
      ((lib.enable_superblocks > -1 → 0 ≤ lib.superblock_fullprobe) →
        lib.enable_partitions > -1 →
        partition_stage_reached (main h lib argv).trace = true)) := by
  refine ⟨?_, ?_, ?_, ?_, ?_, ?_, ?_, ?_, (filter_call_is_made h lib argv).1,
    (filter_call_is_made h lib argv).2,
    fun v path hl hp h1 h2 h3 h4 => stage_is_reached h lib argv v path hl hp h1 h2 h3 h4⟩
  all_goals
    unfold main
    cases hloop : option_loop h Vars.init argv with
    | return_ events status =>
      rcases option_loop_return h argv Vars.init events status hloop with
        ⟨rfl, _⟩ | ⟨rfl, _⟩ | ⟨rfl, _⟩ <;>
      simp [superblock_filters, partition_filters, usage]
    | continue_ v =>
      obtain ⟨p1, p2, p3, p4⟩ := probe_device_filter_results v lib r q
      obtain ⟨w1, w2⟩ := warnings_probe_device v lib
      obtain ⟨a1, a2⟩ := probe_device_after_filter v lib
      first
      | exact p1 | exact p2 | exact p3 | exact p4 | exact w1 | exact w2 | exact a1 | exact a2

/-- C10, on the sample command line with both filter calls failing: both filter
calls are made and both warnings printed; after the superblock filter call come
its warning, the superblock full probe and the superblock print loop, after the
partition filter call its warning, the partition full probe and the partition
print loop; the run returns 0, as the sample run does, and prints the `TYPE`
line. -/
theorem filter_failure_is_not_fatal_witness :
    superblock_filters (main sample_heap filters_fail sample_argv).trace ≠ [] ∧
    partition_filters (main sample_heap filters_fail sample_argv).trace ≠ [] ∧
    Event.fprintf_stderr "warning: failed to filter superblock type(s)\n" [] ∈
      (main sample_heap filters_fail sample_argv).trace ∧
    Event.fprintf_stderr "warning: failed to filter partition type(s)\n" [] ∈
      (main sample_heap filters_fail sample_argv).trace ∧
    ((if filters_fail.filter_superblocks_type < 0 then
          [Event.fprintf_stderr "warning: failed to filter superblock type(s)\n" []]
        else []) ++
        Event.call .blkid_do_fullprobe (some filters_fail.superblock_fullprobe) ::
          (if filters_fail.superblock_fullprobe < 0 then []
           else print_props filters_fail.superblock_lookup superblock_props) <+:
        events_after is_superblock_filter_call
          (main sample_heap filters_fail sample_argv).trace) ∧
    ((if filters_fail.filter_partitions_type < 0 then
          [Event.fprintf_stderr "warning: failed to filter partition type(s)\n" []]
        else []) ++
        Event.call .blkid_do_fullprobe (some filters_fail.partition_fullprobe) ::
          (if filters_fail.partition_fullprobe < 0 then []
           else print_props filters_fail.partition_lookup partition_props) <+:
        events_after is_partition_filter_call
          (main sample_heap filters_fail sample_argv).trace) ∧
    (main sample_heap filters_fail sample_argv).status = 0 ∧
    (main sample_heap filters_fail sample_argv).status =
      (main sample_heap sample_library sample_argv).status ∧
    property_lines (main sample_heap filters_fail sample_argv).trace =
      [("block device", "/dev/sda"), ("TYPE", "ext4")] :=
  ⟨(filter_failure_is_not_fatal sample_heap filters_fail sample_argv 0 0).2.2.2.2.2.2.2.2.1
      (((filter_failure_is_not_fatal sample_heap filters_fail sample_argv 0 0
        ).2.2.2.2.2.2.2.2.2.2 sample_vars "/dev/sda" option_loop_sample (by decide) (by decide)
        (by decide) (by decide) (by decide)).1 (by decide))
      (by decide),
    (filter_failure_is_not_fatal sample_heap filters_fail sample_argv 0 0).2.2.2.2.2.2.2.2.2.1
      (((filter_failure_is_not_fatal sample_heap filters_fail sample_argv 0 0
        ).2.2.2.2.2.2.2.2.2.2 sample_vars "/dev/sda" option_loop_sample (by decide) (by decide)
        (by decide) (by decide) (by decide)).2 (by decide) (by decide))
      (by decide),
    (filter_failure_is_not_fatal sample_heap filters_fail sample_argv 0 0).2.2.2.2.1.mpr
      (by decide),
    (filter_failure_is_not_fatal sample_heap filters_fail sample_argv 0 0).2.2.2.2.2.1.mpr
      (by decide),
    (filter_failure_is_not_fatal sample_heap filters_fail sample_argv 0 0).2.2.2.2.2.2.1
      (by decide),
    (filter_failure_is_not_fatal sample_heap filters_fail sample_argv 0 0).2.2.2.2.2.2.2.1
      (by decide),
    by decide, by decide, by decide⟩

end BlkidTest
